import Mathlib

/-!
Verification development for the bingemate media-go-pkg repository.

The Go sources are shallowly embedded:
  - Go strings are modelled as `List Char` (`Str`);
  - Go `int` is modelled as `Int`, `float32`/`float64` as `ℚ` (only order
    comparisons and exact decimal parses occur in the verified paths);
  - `time.Duration` values are modelled in seconds (the code only scales
    and compares durations, so the ns/s unit choice is immaterial);
  - external processes (ffmpeg/ffprobe), the S3 SDK and the upstream
    metadata provider are modelled as environments supplying their results;
  - a Go runtime panic is modelled by returning `none` (or a dedicated
    outcome constructor) from the embedded function.
-/

namespace MediaPkg

/-- Go strings modelled as lists of characters. -/
abbrev Str := List Char

/-- Decimal digit character for a digit value below ten. -/
def digitChar (d : Nat) : Char := Char.ofNat (48 + d)

/-- Fuel-driven decimal rendering of a natural number, most significant digit
first, mirroring the digit loop of strconv.Itoa. -/
def itoaAux : Nat → Nat → Str
  | 0, _ => []
  | fuel + 1, n =>
      if n < 10 then [digitChar n]
      else itoaAux fuel (n / 10) ++ [digitChar (n % 10)]

/-- Decimal rendering of a natural number. -/
def itoaNat (n : Nat) : Str := itoaAux (n + 1) n

/-- Model of Go strconv.Itoa on the mathematical integers. -/
def itoa (i : Int) : Str :=
  if i < 0 then '-' :: itoaNat (-i).toNat else itoaNat i.toNat

theorem digitChar_ne_colon {d : Nat} (h : d < 10) : digitChar d ≠ ':' := by
  interval_cases d <;> decide

theorem colon_not_mem_itoaAux (fuel n : Nat) : ':' ∉ itoaAux fuel n := by
  induction fuel generalizing n with
  | zero => simp [itoaAux]
  | succ fuel ih =>
      simp only [itoaAux]
      split
      · intro hmem
        rcases List.mem_singleton.mp hmem with h
        exact digitChar_ne_colon (by omega) h.symm
      · intro hmem
        rcases List.mem_append.mp hmem with h | h
        · exact ih _ h
        · rcases List.mem_singleton.mp h with h
          exact digitChar_ne_colon (Nat.mod_lt _ (by omega)) h.symm

theorem colon_not_mem_itoaNat (n : Nat) : ':' ∉ itoaNat n :=
  colon_not_mem_itoaAux _ _

theorem colon_not_mem_itoa (i : Int) : ':' ∉ itoa i := by
  unfold itoa
  split
  · intro hmem
    rcases List.mem_cons.mp hmem with h | h
    · exact absurd h.symm (by decide)
    · exact colon_not_mem_itoaNat _ h
  · exact colon_not_mem_itoaNat _

/-- Number of colon characters in a string. -/
def colons (s : Str) : Nat := s.count ':'

theorem colons_append (s t : Str) : colons (s ++ t) = colons s + colons t :=
  List.count_append _ _ _

theorem colons_itoa (i : Int) : colons (itoa i) = 0 :=
  List.count_eq_zero.mpr (colon_not_mem_itoa i)

/-- Leading segment of a string up to (excluding) the first colon.  Cache keys
are grouped by this segment; it identifies the entity kind of the key. -/
def firstSeg (s : Str) : Str := s.takeWhile (fun c => c != ':')

theorem firstSeg_build (p rest : Str) (hp : ':' ∉ p) :
    firstSeg (p ++ ':' :: rest) = p := by
  induction p with
  | nil => simp [firstSeg]
  | cons c cs ih =>
      have hc : c ≠ ':' := fun h => hp (h ▸ List.mem_cons_self c cs)
      have hcs : ':' ∉ cs := fun h => hp (List.mem_cons_of_mem _ h)
      have hb : (c != ':') = true := by simpa using hc
      simp only [firstSeg, List.cons_append, List.takeWhile, hb]
      simpa [firstSeg] using ih hcs

/-! ## Date handling

Models Go time.Parse with layout 2006-01-02 (exactly four year digits, two
month digits, two day digits, dash separators, full-string match, month and
day range checks) and the conversion to an absolute time, as days since the
Unix epoch (the parsed time is midnight UTC). -/

/-- Digit test for ASCII characters. -/
def isDig (c : Char) : Bool := 48 ≤ c.toNat && c.toNat ≤ 57

/-- Numeric value of an ASCII digit character. -/
def digitVal (c : Char) : Nat := c.toNat - 48

/-- Leap-year rule of the proleptic Gregorian calendar, as used by Go time. -/
def isLeapYear (y : Int) : Bool := y % 4 == 0 && (y % 100 != 0 || y % 400 == 0)

/-- Number of days in a month (1-12) of a year. -/
def daysInMonth (y : Int) (m : Nat) : Nat :=
  match m with
  | 1 => 31
  | 2 => if isLeapYear y then 29 else 28
  | 3 => 31
  | 4 => 30
  | 5 => 31
  | 6 => 30
  | 7 => 31
  | 8 => 31
  | 9 => 30
  | 10 => 31
  | 11 => 30
  | 12 => 31
  | _ => 0

/-- Model of Go time.Parse with layout 2006-01-02: returns the (year, month,
day) triple when the string is a valid calendar date in that exact format. -/
def parseDate (s : Str) : Option (Int × Nat × Nat) :=
  match s with
  | [y1, y2, y3, y4, c1, m1, m2, c2, d1, d2] =>
      if isDig y1 && isDig y2 && isDig y3 && isDig y4 && (c1 == '-') &&
         isDig m1 && isDig m2 && (c2 == '-') && isDig d1 && isDig d2 then
        let y : Int :=
          (digitVal y1 * 1000 + digitVal y2 * 100 + digitVal y3 * 10 + digitVal y4 : Nat)
        let m := digitVal m1 * 10 + digitVal m2
        let d := digitVal d1 * 10 + digitVal d2
        if 1 ≤ m && m ≤ 12 && 1 ≤ d && d ≤ daysInMonth y m then
          some (y, m, d)
        else none
      else none
  | _ => none

/-- Days since 1970-01-01 of a proleptic Gregorian calendar date
(civil-from-days construction). -/
def dateToEpochDay (y : Int) (m d : Nat) : Int :=
  let y2 : Int := if m ≤ 2 then y - 1 else y
  let era : Int := Int.fdiv y2 400
  let yoe : Int := y2 - era * 400
  let mp : Nat := (m + 9) % 12
  let doy : Int := ((153 * mp + 2) / 5 + d - 1 : Int)
  let doe : Int := yoe * 365 + Int.fdiv yoe 4 - Int.fdiv yoe 100 + doy
  era * 146097 + doe - 719468

/-- Parses a YYYY-MM-DD string and converts it to seconds since the Unix
epoch (midnight UTC), the instant produced by Go time.Parse. -/
def parseDateSec (s : Str) : Option Int :=
  (parseDate s).map (fun t => dateToEpochDay t.1 t.2.1 t.2.2 * 86400)

/-! ## Expiration policy (tmdb/cache.go) -/

/-- Model of the defaultExpiration constant of cache.go (30 days), in
seconds. -/
def defaultExpirationSec : Int := 30 * 24 * 3600

/-- Model of the oneWeekExpiration constant of cache.go (7 days), in
seconds. -/
def oneWeekExpirationSec : Int := 7 * 24 * 3600

/-- Model of calculateExpirationDate of cache.go.  The impure time.Now() is
passed explicitly as nowSec (seconds since the Unix epoch); durations are in
seconds. -/
def calculateExpirationDate (nowSec : Int) (releaseDate : Str)
    (defaultExpiration recentExpiration : Int) : Int :=
  if releaseDate = [] then defaultExpiration
  else
    match parseDateSec releaseDate with
    | none => defaultExpiration
    | some rs =>
        if nowSec - rs < 30 * 24 * 3600 then recentExpiration
        else defaultExpiration

/-- C4 (counterexample): a release date 325 days in the future (with now =
2026-10-11) is assigned the recent TTL, not the default TTL, although its
absolute distance from now far exceeds 30 days. -/
theorem c4_counterexample :
    parseDateSec (("2027-09-01").data) = some 1819756800 ∧
    (1791676800 : Int) + 30 * 24 * 3600 < 1819756800 ∧
    calculateExpirationDate 1791676800 (("2027-09-01").data)
      defaultExpirationSec oneWeekExpirationSec = oneWeekExpirationSec ∧
    oneWeekExpirationSec ≠ defaultExpirationSec := by
  refine ⟨by decide, by decide, by decide, by decide⟩

/-- C4 (amended): calculateExpirationDate returns the default TTL for an
empty or unparseable release date; for a parsed date it returns the recent
TTL exactly when now minus the release instant is below 30 days, which
includes every future date, and the default TTL otherwise. -/
theorem c4_expiration_policy (now : Int) (rd : Str) (dflt rcnt : Int) :
    (rd = [] → calculateExpirationDate now rd dflt rcnt = dflt) ∧
    (parseDateSec rd = none → calculateExpirationDate now rd dflt rcnt = dflt) ∧
    (∀ rs : Int, parseDateSec rd = some rs →
      (now - rs < 30 * 24 * 3600 → calculateExpirationDate now rd dflt rcnt = rcnt) ∧
      (30 * 24 * 3600 ≤ now - rs → calculateExpirationDate now rd dflt rcnt = dflt)) := by
  refine ⟨?_, ?_, ?_⟩
  · intro h
    unfold calculateExpirationDate
    rw [if_pos h]
  · intro h
    unfold calculateExpirationDate
    by_cases he : rd = []
    · rw [if_pos he]
    · rw [if_neg he, h]
  · intro rs hrs
    have he : rd ≠ [] := by
      intro h
      rw [h] at hrs
      cases hrs
    constructor
    · intro hlt
      unfold calculateExpirationDate
      rw [if_neg he, hrs]
      simp only [if_pos hlt]
    · intro hge
      unfold calculateExpirationDate
      rw [if_neg he, hrs]
      simp only [if_neg (not_lt.mpr hge)]

theorem c4_expiration_policy_witness :
    (parseDateSec (("2026-01-01").data) = some 1767225600 ∧
      30 * 24 * 3600 ≤ (1791676800 : Int) - 1767225600) ∧
    calculateExpirationDate 1791676800 (("2026-01-01").data)
      defaultExpirationSec oneWeekExpirationSec = defaultExpirationSec :=
  ⟨⟨by decide, by decide⟩,
    ((c4_expiration_policy 1791676800 (("2026-01-01").data) defaultExpirationSec
      oneWeekExpirationSec).2.2 1767225600 (by decide)).2 (by decide)⟩

/-! ## Decimal float parsing

Models strconv.ParseFloat on plain decimal forms (optional sign, digits with
at most one dot and at least one digit, optional decimal exponent).  The
special forms inf/nan/hex accepted by Go do not occur in the verified paths.
Values are exact rationals; the code only compares parsed values, and all
comparisons proved concrete here are far from the float rounding error of the
1.8 threshold. -/

/-- Whether every character of the string is an ASCII digit. -/
def allDigits (s : Str) : Bool := s.all isDig

/-- Value of a string of ASCII digits, most significant first. -/
def digitsToNat (s : Str) : Nat := s.foldl (fun acc c => acc * 10 + digitVal c) 0

/-- Strips a leading sign and reports whether it was a minus. -/
def splitSign (s : Str) : Bool × Str :=
  match s with
  | [] => (false, [])
  | c :: r =>
      if c == '-' then (true, r)
      else if c == '+' then (false, r)
      else (false, c :: r)

/-- Parses an unsigned decimal mantissa (digits, optionally one dot, at least
one digit in total). -/
def parseMantissa (s : Str) : Option ℚ :=
  match s.splitOn '.' with
  | [ip] =>
      if ip ≠ [] ∧ allDigits ip then some (digitsToNat ip) else none
  | [ip, fp] =>
      if (ip ≠ [] ∨ fp ≠ []) ∧ allDigits ip ∧ allDigits fp then
        some ((digitsToNat ip : ℚ) + (digitsToNat fp : ℚ) / (10 : ℚ) ^ fp.length)
      else none
  | _ => none

/-- Parses a signed decimal exponent. -/
def parseExp (s : Str) : Option Int :=
  let (neg, r) := splitSign s
  if r ≠ [] ∧ allDigits r then
    some (if neg then -(digitsToNat r : Int) else (digitsToNat r : Int))
  else none

/-- Model of strconv.ParseFloat restricted to plain decimal forms. -/
def goParseFloat (s : Str) : Option ℚ :=
  let (neg, r) := splitSign s
  let (mant, expTail) := r.span (fun c => c != 'e' && c != 'E')
  let sign : ℚ := if neg then -1 else 1
  match parseMantissa mant, expTail with
  | some m, [] => some (sign * m)
  | some m, _ :: es => (parseExp es).map (fun e => sign * m * (10 : ℚ) ^ e)
  | none, _ => none

/-! ## Transcode orchestrator (transcoder/transcoder.go, final revision)

External processes are supplied by a `TranscodeEnv`: each field gives the
outcome of the corresponding ffmpeg/ffprobe invocation (for the commands that
are retried once with stderr piped, the field is the first run's outcome; the
source returns an error whenever the first run fails, regardless of the
rerun).  A Go panic is modelled by `none`. -/

/-- Output geometry picked by ProcessFileTranscode. -/
inductive Geometry
  | g16x9
  | g21x9
deriving DecidableEq, Repr

/-- Model of the aspect-ratio dispatch of ProcessFileTranscode: Go splits the
ratio twice on a colon, indexes parts 0 and 1 (index 1 panics when the string
has no colon, modelled as `none`), parses both parts with fallbacks 16 and 9,
and compares X/Y against 1.8.  The zero-denominator branch mirrors IEEE float
division (X/±0 is an infinity whose sign is the sign of X, and 0/0 is NaN,
which compares false). -/
def chooseGeometry (aspectRatio : Str) : Option Geometry :=
  match aspectRatio.splitOn ':' with
  | [] => none
  | [_] => none
  | p0 :: p1 :: _ =>
      let ratioX : ℚ := (goParseFloat p0).getD 16
      let ratioY : ℚ := (goParseFloat p1).getD 9
      if ratioY = 0 then
        some (if 0 < ratioX then Geometry.g21x9 else Geometry.g16x9)
      else
        some (if (9 : ℚ) / 5 < ratioX / ratioY then Geometry.g21x9 else Geometry.g16x9)

/-- Stream information extracted from the ffprobe CSV output. -/
structure StreamsInfo where
  audioStreams : List Str
  subtitleStreams : List Str
  videoCodec : Str
  aspectRatio : Str
deriving DecidableEq, Repr

/-- Processes one ffprobe CSV line, mirroring the loop body of
extractStreamsInfo: fields 0..2 are indexed unconditionally (panic when the
line has fewer than three fields), bitmap subtitle codecs are dropped, and
only the first video stream sets codec and aspect ratio (indexing field 3,
which panics when absent). -/
def extractStreamsInfoStep (acc : StreamsInfo) (line : Str) : Option StreamsInfo :=
  match line.splitOn ',' with
  | f0 :: f1 :: f2 :: rest =>
      if f2 = ("audio").data then
        some { acc with audioStreams := acc.audioStreams ++ [f0] }
      else if f2 = ("subtitle").data then
        if f1 ≠ ("dvd_subtitle").data ∧ f1 ≠ ("hdmv_pgs_subtitle").data then
          some { acc with subtitleStreams := acc.subtitleStreams ++ [f0] }
        else some acc
      else if f2 = ("video").data then
        if acc.videoCodec ≠ [] then some acc
        else
          match rest with
          | f3 :: _ => some { acc with videoCodec := f1, aspectRatio := f3 }
          | [] => none
      else some acc
  | _ => none

/-- Model of extractStreamsInfo over the parsed ffprobe output lines. -/
def extractStreamsInfo (lines : List Str) : Option StreamsInfo :=
  lines.foldlM extractStreamsInfoStep ⟨[], [], [], []⟩

/-- Per-track entry of the audio response. -/
structure AudioTranscodeResponse where
  audioIndex : Str
deriving DecidableEq, Repr

/-- Per-track entry of the subtitle response. -/
structure SubtitleTranscodeResponse where
  subtitleIndex : Str
deriving DecidableEq, Repr

/-- Result payload of ProcessFileTranscode. -/
structure TranscodeResponse where
  videoIndex : Str
  audios : List AudioTranscodeResponse
  subtitles : List SubtitleTranscodeResponse
deriving DecidableEq, Repr

/-- Opaque error token standing for a Go error value. -/
abbrev GoErr := Nat

/-- Environment supplying the outcomes of external invocations made by one
ProcessFileTranscode run. -/
structure TranscodeEnv where
  prepareRes : Option GoErr
  probeRes : Except GoErr (List Str)
  videoRes : Geometry → Option GoErr
  audioRes : Str → Option GoErr
  introProbeRes : Except GoErr ℚ
  subExtractRes : Str → Option GoErr
  subShiftRes : Str → Option GoErr

/-- Model of the extractAudioStreams loop: streams are processed in order and
the first failing ffmpeg run aborts the stage with its error. -/
def extractAudioStreamsRun (env : TranscodeEnv) (streams : List Str) : Option GoErr :=
  streams.findSome? env.audioRes

/-- Loop body of extractSubtitleStreams over the retained subtitle streams:
a failing extraction aborts with its error; a failing timecode shift is only
logged (second component) and processing continues. -/
def subtitleLoop (env : TranscodeEnv) : List Str → Option GoErr × List Str
  | [] => (none, [])
  | s :: rest =>
      match env.subExtractRes s with
      | some e => (some e, [])
      | none =>
          let logged := match env.subShiftRes s with
            | some _ => [s]
            | none => []
          let r := subtitleLoop env rest
          (r.1, logged ++ r.2)

/-- Model of extractSubtitleStreams: the intro duration is probed first (a
probe failure fails the stage), then each stream is extracted and shifted. -/
def extractSubtitleStreamsRun (env : TranscodeEnv) (streams : List Str) :
    Option GoErr × List Str :=
  match env.introProbeRes with
  | .error e => (some e, [])
  | .ok _ => subtitleLoop env streams

/-- Response assembled by ProcessFileTranscode on success. -/
def buildTranscodeResponse (info : StreamsInfo) : TranscodeResponse :=
  { videoIndex := ("index.m3u8").data
  , audios := info.audioStreams.map
      (fun s => ⟨("audio_").data ++ s ++ (".m3u8").data⟩)
  , subtitles := info.subtitleStreams.map
      (fun s => ⟨("subtitle_").data ++ s ++ (".vtt").data⟩) }

deriving instance DecidableEq for Except

/-- Final observable state of one ProcessFileTranscode run: the returned
value and whether the output directory outputRoot/mediaID is still present. -/
structure TranscodeOutcome where
  result : Except GoErr TranscodeResponse
  outDirPresent : Bool
deriving DecidableEq, Repr

/-- Model of ProcessFileTranscode (final revision): prepare the output
directory, probe the source, pick the geometry from the first video stream's
aspect ratio, then run the video, audio and subtitle stages; any error from
those three stages removes the output directory (os.RemoveAll) before it is
returned.  `none` models a Go panic. -/
def processFileTranscode (env : TranscodeEnv) : Option TranscodeOutcome :=
  match env.prepareRes with
  | some e => some ⟨.error e, true⟩
  | none =>
  match env.probeRes with
  | .error e => some ⟨.error e, true⟩
  | .ok lines =>
  match extractStreamsInfo lines with
  | none => none
  | some info =>
  match chooseGeometry info.aspectRatio with
  | none => none
  | some geo =>
  match env.videoRes geo with
  | some e => some ⟨.error e, false⟩
  | none =>
  match extractAudioStreamsRun env info.audioStreams with
  | some e => some ⟨.error e, false⟩
  | none =>
  match (extractSubtitleStreamsRun env info.subtitleStreams).1 with
  | some e => some ⟨.error e, false⟩
  | none => some ⟨.ok (buildTranscodeResponse info), true⟩

theorem chooseGeometry_16x9 : chooseGeometry (("16:9").data) = some Geometry.g16x9 := by
  simp [chooseGeometry, goParseFloat, parseMantissa, splitSign, parseExp, allDigits, isDig,
    digitsToNat, digitVal, List.splitOn, List.splitOnP, List.splitOnP.go, List.span,
    List.span.loop, Option.getD]
  norm_num

theorem chooseGeometry_21x9 : chooseGeometry (("21:9").data) = some Geometry.g21x9 := by
  simp [chooseGeometry, goParseFloat, parseMantissa, splitSign, parseExp, allDigits, isDig,
    digitsToNat, digitVal, List.splitOn, List.splitOnP, List.splitOnP.go, List.span,
    List.span.loop, Option.getD]
  norm_num

theorem chooseGeometry_cinemascope :
    chooseGeometry (("2.35:1").data) = some Geometry.g21x9 := by
  simp [chooseGeometry, goParseFloat, parseMantissa, splitSign, parseExp, allDigits, isDig,
    digitsToNat, digitVal, List.splitOn, List.splitOnP, List.splitOnP.go, List.span,
    List.span.loop, Option.getD]
  norm_num

theorem chooseGeometry_malformed_with_colon :
    chooseGeometry (("abc:def").data) = some Geometry.g16x9 := by
  simp [chooseGeometry, goParseFloat, parseMantissa, splitSign, parseExp, allDigits, isDig,
    digitsToNat, digitVal, List.splitOn, List.splitOnP, List.splitOnP.go, List.span,
    List.span.loop, Option.getD]
  norm_num

theorem chooseGeometry_no_colon : chooseGeometry (("N/A").data) = none := by
  simp [chooseGeometry, List.splitOn, List.splitOnP, List.splitOnP.go]

theorem chooseGeometry_empty : chooseGeometry [] = none := by
  simp [chooseGeometry, List.splitOn, List.splitOnP, List.splitOnP.go]

/-- Environment of a run whose source reports a first video stream with
display_aspect_ratio N/A (the ffprobe CSV value when the ratio is unknown);
every external invocation would succeed. -/
def envAspectNA : TranscodeEnv :=
  { prepareRes := none
  , probeRes := .ok [("0,h264,video,N/A").data]
  , videoRes := fun _ => none
  , audioRes := fun _ => none
  , introProbeRes := .ok 10
  , subExtractRes := fun _ => none
  , subShiftRes := fun _ => none }

/-- C1: the spec says an unparseable display_aspect_ratio falls back to the
16:9 geometry and the run proceeds.  The code does fall back to 16:9 when the
ratio contains a colon but a component fails to parse, and dispatches to 21:9
for parsed ratios above 1.8; but when the ratio contains no colon at all
(missing, N/A, or empty) the expression strings.Split(aspectRatio, ":")[1]
indexes past the end and ProcessFileTranscode panics instead of proceeding
with 16:9. -/
theorem c1_aspect_ratio_dispatch :
    chooseGeometry (("16:9").data) = some Geometry.g16x9 ∧
    chooseGeometry (("21:9").data) = some Geometry.g21x9 ∧
    chooseGeometry (("2.35:1").data) = some Geometry.g21x9 ∧
    chooseGeometry (("abc:def").data) = some Geometry.g16x9 ∧
    chooseGeometry (("N/A").data) = none ∧
    chooseGeometry [] = none ∧
    processFileTranscode envAspectNA = none :=
  ⟨chooseGeometry_16x9, chooseGeometry_21x9, chooseGeometry_cinemascope,
    chooseGeometry_malformed_with_colon, chooseGeometry_no_colon, chooseGeometry_empty,
    by rfl⟩

/-- C2: when directory preparation and the probe succeed, every error result
of ProcessFileTranscode comes from the video, audio or subtitle stage, and in
each of those cases the output directory has been recursively removed before
the error is returned. -/
theorem c2_cleanup_on_stage_failure (env : TranscodeEnv) (out : TranscodeOutcome)
    (e : GoErr) (lines : List Str)
    (hrun : processFileTranscode env = some out)
    (hprep : env.prepareRes = none)
    (hprobe : env.probeRes = .ok lines)
    (herr : out.result = .error e) :
    out.outDirPresent = false := by
  unfold processFileTranscode at hrun
  simp only [hprep, hprobe] at hrun
  cases hsi : extractStreamsInfo lines with
  | none => simp only [hsi] at hrun; cases hrun
  | some info =>
      simp only [hsi] at hrun
      cases hg : chooseGeometry info.aspectRatio with
      | none => simp only [hg] at hrun; cases hrun
      | some geo =>
          simp only [hg] at hrun
          cases hv : env.videoRes geo with
          | some e2 =>
              simp only [hv] at hrun
              cases hrun
              rfl
          | none =>
              simp only [hv] at hrun
              cases ha : extractAudioStreamsRun env info.audioStreams with
              | some e2 =>
                  simp only [ha] at hrun
                  cases hrun
                  rfl
              | none =>
                  simp only [ha] at hrun
                  cases hs : (extractSubtitleStreamsRun env info.subtitleStreams).1 with
                  | some e2 =>
                      simp only [hs] at hrun
                      cases hrun
                      rfl
                  | none =>
                      simp only [hs] at hrun
                      cases hrun
                      cases herr

/-- Environment of a run whose video-stage ffmpeg invocation fails; the
source is well formed with a 16:9 first video stream. -/
def envVideoFail : TranscodeEnv :=
  { prepareRes := none
  , probeRes := .ok [("0,h264,video,16:9").data]
  , videoRes := fun _ => some 7
  , audioRes := fun _ => none
  , introProbeRes := .ok 10
  , subExtractRes := fun _ => none
  , subShiftRes := fun _ => none }

theorem c2_cleanup_on_stage_failure_witness :
    (processFileTranscode envVideoFail = some ⟨.error 7, false⟩ ∧
      envVideoFail.prepareRes = none ∧
      envVideoFail.probeRes = .ok [("0,h264,video,16:9").data] ∧
      (Except.error 7 : Except GoErr TranscodeResponse) = .error 7) ∧
    (false : Bool) = false := by
  have h16 : chooseGeometry ['1', '6', ':', '9'] = some Geometry.g16x9 :=
    chooseGeometry_16x9
  have hrun : processFileTranscode envVideoFail = some ⟨.error 7, false⟩ := by
    simp [processFileTranscode, envVideoFail, extractStreamsInfo, extractStreamsInfoStep,
      List.splitOn, List.splitOnP, List.splitOnP.go, h16]
  exact ⟨⟨hrun, rfl, rfl, rfl⟩,
    c2_cleanup_on_stage_failure envVideoFail ⟨.error 7, false⟩ 7
      [("0,h264,video,16:9").data] hrun rfl rfl rfl⟩

/-- Replaces the timecode-shift outcomes of an environment. -/
def setShift (env : TranscodeEnv) (f : Str → Option GoErr) : TranscodeEnv :=
  { env with subShiftRes := f }

theorem subtitleLoop_fst_congr (env1 env2 : TranscodeEnv)
    (h : env1.subExtractRes = env2.subExtractRes) (streams : List Str) :
    (subtitleLoop env1 streams).1 = (subtitleLoop env2 streams).1 := by
  induction streams with
  | nil => rfl
  | cons s rest ih =>
      simp only [subtitleLoop, h]
      cases env2.subExtractRes s with
      | some e => rfl
      | none => simpa using ih

theorem extractSubtitleStreamsRun_fst_congr (env1 env2 : TranscodeEnv)
    (hi : env1.introProbeRes = env2.introProbeRes)
    (h : env1.subExtractRes = env2.subExtractRes) (streams : List Str) :
    (extractSubtitleStreamsRun env1 streams).1 =
      (extractSubtitleStreamsRun env2 streams).1 := by
  unfold extractSubtitleStreamsRun
  rw [hi]
  cases env2.introProbeRes with
  | error e => rfl
  | ok d => exact subtitleLoop_fst_congr env1 env2 h streams

theorem processFileTranscode_congr (e1 e2 : TranscodeEnv)
    (hp : e1.prepareRes = e2.prepareRes) (hb : e1.probeRes = e2.probeRes)
    (hv : e1.videoRes = e2.videoRes) (ha : e1.audioRes = e2.audioRes)
    (hi : e1.introProbeRes = e2.introProbeRes)
    (hs : e1.subExtractRes = e2.subExtractRes) :
    processFileTranscode e1 = processFileTranscode e2 := by
  have hsub := fun streams => extractSubtitleStreamsRun_fst_congr e1 e2 hi hs streams
  cases e1 with
  | mk p1 pr1 v1 a1 i1 se1 sh1 =>
  cases e2 with
  | mk p2 pr2 v2 a2 i2 se2 sh2 =>
  simp only at hp hb hv ha hi hs
  subst hp hb hv ha hi hs
  unfold processFileTranscode
  dsimp only
  cases p1 with
  | some e => rfl
  | none =>
      dsimp only
      cases pr1 with
      | error e => rfl
      | ok lines =>
          dsimp only
          cases extractStreamsInfo lines with
          | none => rfl
          | some info =>
              dsimp only
              cases chooseGeometry info.aspectRatio with
              | none => rfl
              | some geo =>
                  dsimp only [extractAudioStreamsRun]
                  rw [hsub info.subtitleStreams]

/-- C3 (amended): a timecode-shift failure on an individual subtitle is only
logged: the result of ProcessFileTranscode does not depend on the shift
outcomes at all, and the subtitle stage succeeds exactly when the intro
duration probe and every retained stream's extraction succeed. -/
theorem c3_shift_failures_logged_not_fatal :
    (∀ (env : TranscodeEnv) (f : Str → Option GoErr),
        processFileTranscode (setShift env f) = processFileTranscode env) ∧
    (∀ (env : TranscodeEnv) (streams : List Str),
        (extractSubtitleStreamsRun env streams).1 = none ↔
          ((∃ d, env.introProbeRes = .ok d) ∧
            ∀ s ∈ streams, env.subExtractRes s = none)) := by
  constructor
  · intro env f
    exact processFileTranscode_congr (setShift env f) env rfl rfl rfl rfl rfl rfl
  · intro env streams
    unfold extractSubtitleStreamsRun
    cases h : env.introProbeRes with
    | error e => simp [h]
    | ok d =>
        simp only [h]
        constructor
        · intro hloop
          refine ⟨⟨d, rfl⟩, ?_⟩
          induction streams with
          | nil => simp
          | cons s rest ih =>
              simp only [subtitleLoop] at hloop
              cases hse : env.subExtractRes s with
              | some e => rw [hse] at hloop; cases hloop
              | none =>
                  rw [hse] at hloop
                  simp only at hloop
                  intro t ht
                  rcases List.mem_cons.mp ht with rfl | ht2
                  · exact hse
                  · exact ih hloop t ht2
        · rintro ⟨-, hall⟩
          induction streams with
          | nil => rfl
          | cons s rest ih =>
              simp only [subtitleLoop, hall s (List.mem_cons_self s rest)]
              exact ih (fun t ht => hall t (List.mem_cons_of_mem _ ht))

/-- Environment of a run with one retained subtitle stream whose extraction
succeeds but whose timecode shift fails. -/
def envShiftFail : TranscodeEnv :=
  { prepareRes := none
  , probeRes := .ok [("0,h264,video,16:9").data, ("2,subrip,subtitle,N/A").data]
  , videoRes := fun _ => none
  , audioRes := fun _ => none
  , introProbeRes := .ok 10
  , subExtractRes := fun _ => none
  , subShiftRes := fun _ => some 3 }

/-- C3 (counterexample): the shift of subtitle stream 2 fails in this run,
the failure is recorded in the log, and ProcessFileTranscode nevertheless
returns success, contradicting the claim that the run returns the shift
error. -/
theorem c3_counterexample :
    envShiftFail.subShiftRes (("2").data) = some 3 ∧
    (extractSubtitleStreamsRun envShiftFail [("2").data]).2 = [("2").data] ∧
    processFileTranscode envShiftFail =
      some ⟨.ok (buildTranscodeResponse ⟨[], [("2").data], ("h264").data, ("16:9").data⟩),
        true⟩ := by
  have h16 : chooseGeometry ['1', '6', ':', '9'] = some Geometry.g16x9 :=
    chooseGeometry_16x9
  refine ⟨rfl, by rfl, ?_⟩
  simp [processFileTranscode, envShiftFail, extractStreamsInfo, extractStreamsInfoStep,
    List.splitOn, List.splitOnP, List.splitOnP.go, h16,
    extractAudioStreamsRun, extractSubtitleStreamsRun, subtitleLoop, buildTranscodeResponse]

theorem c3_shift_failures_logged_not_fatal_witness :
    processFileTranscode (setShift envShiftFail (fun _ => none)) =
      processFileTranscode envShiftFail :=
  c3_shift_failures_logged_not_fatal.1 envShiftFail (fun _ => none)

/-! ## Media entities (tmdb/tmdb.go)

Go structs; `int` becomes `Int`, `float32` becomes `ℚ`, strings become
`Str`, pointers used only for optionality become `Option`, slices become
lists. -/

/-- Movie/TV genre. -/
structure Genre where
  id : Int
  name : Str
deriving DecidableEq, Repr

/-- Cast or crew member of a movie or show. -/
structure Person where
  id : Int
  character : Str
  name : Str
  profileUrl : Str
deriving DecidableEq, Repr

/-- Production company or network. -/
structure Studio where
  id : Int
  name : Str
  logoUrl : Str
deriving DecidableEq, Repr

/-- Person entity returned by the actor endpoints. -/
structure Actor where
  id : Int
  name : Str
  profileUrl : Str
  overview : Str
deriving DecidableEq, Repr

/-- Movie entity (field order follows the Go struct declaration). -/
structure Movie where
  id : Int
  actors : List Person
  backdropUrl : Str
  crew : List Person
  genres : List Genre
  overview : Str
  posterUrl : Str
  releaseDate : Str
  studios : List Studio
  title : Str
  voteAverage : ℚ
  voteCount : Int
deriving DecidableEq, Repr

/-- TV episode entity. -/
structure TVEpisode where
  id : Int
  tvShowId : Int
  posterUrl : Str
  episodeNumber : Int
  seasonNumber : Int
  name : Str
  overview : Str
  airDate : Str
deriving DecidableEq, Repr

/-- TV show entity. -/
structure TVShow where
  id : Int
  actors : List Person
  backdropUrl : Str
  crew : List Person
  genres : List Genre
  overview : Str
  posterUrl : Str
  releaseDate : Str
  networks : List Studio
  status : Str
  nextEpisode : Option TVEpisode
  title : Str
  seasonsCount : Int
  episodesCount : Int
  voteAverage : ℚ
  voteCount : Int
deriving DecidableEq, Repr

/-- Paginated movie page (no json tags in Go: field names are used). -/
structure PaginatedMovieResults where
  results : List Movie
  totalPage : Int
  totalResult : Int
deriving DecidableEq, Repr

/-- Paginated TV show page. -/
structure PaginatedTVShowResults where
  results : List TVShow
  totalPage : Int
  totalResult : Int
deriving DecidableEq, Repr

/-! ## Cache keys (tmdb/cache.go)

Keys are written as a colon-free kind literal, a colon, and the argument
tail, which is exactly the string the Go code concatenates. -/

/-- Key of a full movie entry. -/
def movieKey (id : Int) : Str := ("movie").data ++ ':' :: itoa id

/-- Key of a short movie entry. -/
def movieShortKey (id : Int) : Str := ("movie_short").data ++ ':' :: itoa id

/-- Key of a full TV show entry. -/
def tvKey (id : Int) : Str := ("tv").data ++ ':' :: itoa id

/-- Key of a short TV show entry. -/
def tvShortKey (id : Int) : Str := ("tv_short").data ++ ':' :: itoa id

/-- Key of an episode entry. -/
def episodeKey (tv sn en : Int) : Str :=
  ("episode").data ++ ':' :: (itoa tv ++ ':' :: (itoa sn ++ ':' :: itoa en))

/-- Key of a season entry. -/
def seasonKey (tv sn : Int) : Str :=
  ("season").data ++ ':' :: (itoa tv ++ ':' :: itoa sn)

/-- Key of a movie search page; the available cache revision has no adult
flag parameter, so the key carries only query and page. -/
def movieSearchKey (q : Str) (p : Int) : Str :=
  ("movie_search").data ++ ':' :: (q ++ ':' :: itoa p)

/-- Key of a movie search page restricted to a year. -/
def movieSearchYearKey (q : Str) (p : Int) (year : Str) : Str :=
  ("movie_search").data ++ ':' :: (q ++ ':' :: (itoa p ++ ':' :: year))

/-- Key of a TV search page. -/
def tvSearchKey (q : Str) (p : Int) : Str :=
  ("tv_search").data ++ ':' :: (q ++ ':' :: itoa p)

/-- Key of a movie genre entity. -/
def movieGenreKey (id : Int) : Str := ("movie_genre").data ++ ':' :: itoa id

/-- Key of a TV genre entity. -/
def tvGenreKey (id : Int) : Str := ("tv_genre").data ++ ':' :: itoa id

/-- Key of an actor entity. -/
def actorKey (id : Int) : Str := ("actor").data ++ ':' :: itoa id

/-- In-memory key of a discover-movies-by-genre page. -/
def memMoviesByGenreKey (g p : Int) : Str :=
  ("movies_by_genre").data ++ ':' :: (itoa g ++ ':' :: itoa p)

/-- In-memory key of a discover-TV-by-genre page. -/
def memTVsByGenreKey (g p : Int) : Str :=
  ("tvs_by_genre").data ++ ':' :: (itoa g ++ ':' :: itoa p)

/-- In-memory key of a discover-movies-by-actor page. -/
def memMoviesByActorKey (a p : Int) : Str :=
  ("movies_by_actor").data ++ ':' :: (itoa a ++ ':' :: itoa p)

/-- In-memory key of a discover-TV-by-actor page. -/
def memTVsByActorKey (a p : Int) : Str :=
  ("tvs_by_actor").data ++ ':' :: (itoa a ++ ':' :: itoa p)

/-- In-memory key of a discover-movies-by-studio page. -/
def memMoviesByStudioKey (s p : Int) : Str :=
  ("movies_by_studio").data ++ ':' :: (itoa s ++ ':' :: itoa p)

/-- In-memory key of a discover-TV-by-network page. -/
def memTVsByNetworkKey (n p : Int) : Str :=
  ("tvs_by_network").data ++ ':' :: (itoa n ++ ':' :: itoa p)

/-- Key of a movie recommendation list. -/
def movieRecsKey (id : Int) : Str :=
  ("movie_recommendations").data ++ ':' :: itoa id

/-- Key of a TV recommendation list. -/
def tvRecsKey (id : Int) : Str :=
  ("tv_recommendations").data ++ ':' :: itoa id

/-- Remote-KV key used by AddMoviesByGenre/GetMoviesByGenre: the source uses
the movie_genre prefix here, not the movies_by_genre prefix. -/
def redisMoviesByGenreKey (g p : Int) : Str :=
  ("movie_genre").data ++ ':' :: (itoa g ++ ':' :: itoa p)

/-- Remote-KV key used by AddTVsByGenre/GetTVsByGenre. -/
def redisTVsByGenreKey (g p : Int) : Str :=
  ("tv_genre").data ++ ':' :: (itoa g ++ ':' :: itoa p)

/-- Remote-KV key used by AddMoviesByActor/GetMoviesByActor. -/
def redisMoviesByActorKey (a p : Int) : Str :=
  ("movie_actor").data ++ ':' :: (itoa a ++ ':' :: itoa p)

/-- Remote-KV key used by AddTVsByActor/GetTVsByActor. -/
def redisTVsByActorKey (a p : Int) : Str :=
  ("tv_actor").data ++ ':' :: (itoa a ++ ':' :: itoa p)

/-- Remote-KV key used by AddMoviesByStudio/GetMoviesByStudio. -/
def redisMoviesByStudioKey (s p : Int) : Str :=
  ("movie_studio").data ++ ':' :: (itoa s ++ ':' :: itoa p)

/-- Remote-KV key used by AddTVsByNetwork/GetTVsByNetwork. -/
def redisTVsByNetworkKey (n p : Int) : Str :=
  ("tv_network").data ++ ':' :: (itoa n ++ ':' :: itoa p)

/-! ## In-memory cache (go-cache backed variant) -/

/-- Value stored in the in-process cache (the dynamic type of the Go
interface value). -/
inductive CacheVal
  | movie (m : Movie)
  | tvshow (t : TVShow)
  | episode (e : TVEpisode)
  | season (s : List TVEpisode)
  | pagMovies (r : PaginatedMovieResults)
  | pagTVs (r : PaginatedTVShowResults)
  | genre (g : Genre)
  | actor (a : Actor)
  | movieList (l : List Movie)
  | tvList (l : List TVShow)
deriving DecidableEq, Repr

/-- In-memory cache state: key to stored interface value. -/
def MemStore := Str → Option CacheVal

/-- Empty in-memory cache. -/
def memEmpty : MemStore := fun _ => none

/-- Point update of the in-memory cache (go-cache Set). -/
def memSet (st : MemStore) (k : Str) (v : CacheVal) : MemStore :=
  fun k2 => if k2 = k then some v else st k2

/-- Outcome of a typed cache read: a miss, a hit, or a runtime panic of the
unchecked Go type assertion. -/
inductive GetRes (α : Type)
  | miss
  | hit (v : α)
  | goPanic
deriving DecidableEq

/-- Generic in-memory getter: absent keys are misses; present values pass
through the unchecked type assertion, which panics when the projection to
the expected type fails. -/
def memGetAs (st : MemStore) (k : Str) (proj : CacheVal → Option α) : GetRes α :=
  match st k with
  | none => .miss
  | some v =>
      match proj v with
      | some x => .hit x
      | none => .goPanic

/-- Projection of the movie interface type. -/
def asMovie : CacheVal → Option Movie
  | .movie m => some m
  | _ => none

/-- Projection of the TV show interface type. -/
def asTVShow : CacheVal → Option TVShow
  | .tvshow t => some t
  | _ => none

/-- Projection of the episode interface type. -/
def asEpisode : CacheVal → Option TVEpisode
  | .episode e => some e
  | _ => none

/-- Projection of the season interface type. -/
def asSeason : CacheVal → Option (List TVEpisode)
  | .season s => some s
  | _ => none

/-- Projection of the paginated movie page interface type. -/
def asPagMovies : CacheVal → Option PaginatedMovieResults
  | .pagMovies r => some r
  | _ => none

/-- Projection of the paginated TV page interface type. -/
def asPagTVs : CacheVal → Option PaginatedTVShowResults
  | .pagTVs r => some r
  | _ => none

/-- Projection of the genre interface type. -/
def asGenre : CacheVal → Option Genre
  | .genre g => some g
  | _ => none

/-- Projection of the actor interface type. -/
def asActor : CacheVal → Option Actor
  | .actor a => some a
  | _ => none

/-- Projection of the movie list interface type. -/
def asMovieList : CacheVal → Option (List Movie)
  | .movieList l => some l
  | _ => none

/-- Projection of the TV show list interface type. -/
def asTVList : CacheVal → Option (List TVShow)
  | .tvList l => some l
  | _ => none

/-- inMemoryMediaCache.AddMovie. -/
def inMemAddMovie (st : MemStore) (m : Movie) : MemStore :=
  memSet st (movieKey m.id) (.movie m)

/-- inMemoryMediaCache.GetMovie. -/
def inMemGetMovie (st : MemStore) (id : Int) : GetRes Movie :=
  memGetAs st (movieKey id) asMovie

/-- inMemoryMediaCache.AddMovieShort. -/
def inMemAddMovieShort (st : MemStore) (m : Movie) : MemStore :=
  memSet st (movieShortKey m.id) (.movie m)

/-- inMemoryMediaCache.GetMovieShort. -/
def inMemGetMovieShort (st : MemStore) (id : Int) : GetRes Movie :=
  memGetAs st (movieShortKey id) asMovie

/-- inMemoryMediaCache.AddTV. -/
def inMemAddTV (st : MemStore) (t : TVShow) : MemStore :=
  memSet st (tvKey t.id) (.tvshow t)

/-- inMemoryMediaCache.GetTV. -/
def inMemGetTV (st : MemStore) (id : Int) : GetRes TVShow :=
  memGetAs st (tvKey id) asTVShow

/-- inMemoryMediaCache.AddTVShort. -/
def inMemAddTVShort (st : MemStore) (t : TVShow) : MemStore :=
  memSet st (tvShortKey t.id) (.tvshow t)

/-- inMemoryMediaCache.GetTVShort. -/
def inMemGetTVShort (st : MemStore) (id : Int) : GetRes TVShow :=
  memGetAs st (tvShortKey id) asTVShow

/-- inMemoryMediaCache.AddEpisode. -/
def inMemAddEpisode (st : MemStore) (e : TVEpisode) : MemStore :=
  memSet st (episodeKey e.tvShowId e.seasonNumber e.episodeNumber) (.episode e)

/-- inMemoryMediaCache.GetEpisode. -/
def inMemGetEpisode (st : MemStore) (tv sn en : Int) : GetRes TVEpisode :=
  memGetAs st (episodeKey tv sn en) asEpisode

/-- inMemoryMediaCache.AddSeason. -/
def inMemAddSeason (st : MemStore) (tv sn : Int) (s : List TVEpisode) : MemStore :=
  memSet st (seasonKey tv sn) (.season s)

/-- inMemoryMediaCache.GetSeason. -/
def inMemGetSeason (st : MemStore) (tv sn : Int) : GetRes (List TVEpisode) :=
  memGetAs st (seasonKey tv sn) asSeason

/-- inMemoryMediaCache.AddMovieSearchResults (no adult parameter in this
revision). -/
def inMemAddMovieSearchResults (st : MemStore) (q : Str) (p : Int)
    (r : PaginatedMovieResults) : MemStore :=
  memSet st (movieSearchKey q p) (.pagMovies r)

/-- inMemoryMediaCache.GetMovieSearchResults. -/
def inMemGetMovieSearchResults (st : MemStore) (q : Str) (p : Int) :
    GetRes PaginatedMovieResults :=
  memGetAs st (movieSearchKey q p) asPagMovies

/-- inMemoryMediaCache.AddMovieSearchResultsYear. -/
def inMemAddMovieSearchResultsYear (st : MemStore) (q : Str) (p : Int) (year : Str)
    (r : PaginatedMovieResults) : MemStore :=
  memSet st (movieSearchYearKey q p year) (.pagMovies r)

/-- inMemoryMediaCache.GetMovieSearchResultsYear. -/
def inMemGetMovieSearchResultsYear (st : MemStore) (q : Str) (p : Int) (year : Str) :
    GetRes PaginatedMovieResults :=
  memGetAs st (movieSearchYearKey q p year) asPagMovies

/-- inMemoryMediaCache.AddTVSearchResults. -/
def inMemAddTVSearchResults (st : MemStore) (q : Str) (p : Int)
    (r : PaginatedTVShowResults) : MemStore :=
  memSet st (tvSearchKey q p) (.pagTVs r)

/-- inMemoryMediaCache.GetTVSearchResults. -/
def inMemGetTVSearchResults (st : MemStore) (q : Str) (p : Int) :
    GetRes PaginatedTVShowResults :=
  memGetAs st (tvSearchKey q p) asPagTVs

/-- inMemoryMediaCache.AddMovieGenre. -/
def inMemAddMovieGenre (st : MemStore) (g : Genre) : MemStore :=
  memSet st (movieGenreKey g.id) (.genre g)

/-- inMemoryMediaCache.GetMovieGenre. -/
def inMemGetMovieGenre (st : MemStore) (id : Int) : GetRes Genre :=
  memGetAs st (movieGenreKey id) asGenre

/-- inMemoryMediaCache.AddTVGenre. -/
def inMemAddTVGenre (st : MemStore) (g : Genre) : MemStore :=
  memSet st (tvGenreKey g.id) (.genre g)

/-- inMemoryMediaCache.GetTVGenre. -/
def inMemGetTVGenre (st : MemStore) (id : Int) : GetRes Genre :=
  memGetAs st (tvGenreKey id) asGenre

/-- inMemoryMediaCache.AddActor. -/
def inMemAddActor (st : MemStore) (a : Actor) : MemStore :=
  memSet st (actorKey a.id) (.actor a)

/-- inMemoryMediaCache.GetActor. -/
def inMemGetActor (st : MemStore) (id : Int) : GetRes Actor :=
  memGetAs st (actorKey id) asActor

/-- inMemoryMediaCache.AddMoviesByGenre. -/
def inMemAddMoviesByGenre (st : MemStore) (g p : Int)
    (r : PaginatedMovieResults) : MemStore :=
  memSet st (memMoviesByGenreKey g p) (.pagMovies r)

/-- inMemoryMediaCache.GetMoviesByGenre. -/
def inMemGetMoviesByGenre (st : MemStore) (g p : Int) : GetRes PaginatedMovieResults :=
  memGetAs st (memMoviesByGenreKey g p) asPagMovies

/-- inMemoryMediaCache.AddTVsByGenre. -/
def inMemAddTVsByGenre (st : MemStore) (g p : Int)
    (r : PaginatedTVShowResults) : MemStore :=
  memSet st (memTVsByGenreKey g p) (.pagTVs r)

/-- inMemoryMediaCache.GetTVsByGenre. -/
def inMemGetTVsByGenre (st : MemStore) (g p : Int) : GetRes PaginatedTVShowResults :=
  memGetAs st (memTVsByGenreKey g p) asPagTVs

/-- inMemoryMediaCache.AddMoviesByActor. -/
def inMemAddMoviesByActor (st : MemStore) (a p : Int)
    (r : PaginatedMovieResults) : MemStore :=
  memSet st (memMoviesByActorKey a p) (.pagMovies r)

/-- inMemoryMediaCache.GetMoviesByActor. -/
def inMemGetMoviesByActor (st : MemStore) (a p : Int) : GetRes PaginatedMovieResults :=
  memGetAs st (memMoviesByActorKey a p) asPagMovies

/-- inMemoryMediaCache.AddTVsByActor. -/
def inMemAddTVsByActor (st : MemStore) (a p : Int)
    (r : PaginatedTVShowResults) : MemStore :=
  memSet st (memTVsByActorKey a p) (.pagTVs r)

/-- inMemoryMediaCache.GetTVsByActor. -/
def inMemGetTVsByActor (st : MemStore) (a p : Int) : GetRes PaginatedTVShowResults :=
  memGetAs st (memTVsByActorKey a p) asPagTVs

/-- inMemoryMediaCache.AddMoviesByStudio. -/
def inMemAddMoviesByStudio (st : MemStore) (s p : Int)
    (r : PaginatedMovieResults) : MemStore :=
  memSet st (memMoviesByStudioKey s p) (.pagMovies r)

/-- inMemoryMediaCache.GetMoviesByStudio. -/
def inMemGetMoviesByStudio (st : MemStore) (s p : Int) : GetRes PaginatedMovieResults :=
  memGetAs st (memMoviesByStudioKey s p) asPagMovies

/-- inMemoryMediaCache.AddTVsByNetwork. -/
def inMemAddTVsByNetwork (st : MemStore) (n p : Int)
    (r : PaginatedTVShowResults) : MemStore :=
  memSet st (memTVsByNetworkKey n p) (.pagTVs r)

/-- inMemoryMediaCache.GetTVsByNetwork. -/
def inMemGetTVsByNetwork (st : MemStore) (n p : Int) : GetRes PaginatedTVShowResults :=
  memGetAs st (memTVsByNetworkKey n p) asPagTVs

/-- inMemoryMediaCache.AddMovieRecommendations. -/
def inMemAddMovieRecommendations (st : MemStore) (id : Int) (l : List Movie) : MemStore :=
  memSet st (movieRecsKey id) (.movieList l)

/-- inMemoryMediaCache.GetMovieRecommendations. -/
def inMemGetMovieRecommendations (st : MemStore) (id : Int) : GetRes (List Movie) :=
  memGetAs st (movieRecsKey id) asMovieList

/-- inMemoryMediaCache.AddTVRecommendations. -/
def inMemAddTVRecommendations (st : MemStore) (id : Int) (l : List TVShow) : MemStore :=
  memSet st (tvRecsKey id) (.tvList l)

/-- inMemoryMediaCache.GetTVRecommendations. -/
def inMemGetTVRecommendations (st : MemStore) (id : Int) : GetRes (List TVShow) :=
  memGetAs st (tvRecsKey id) asTVList

/-! ## Type consistency of reachable in-memory states

Each key's segment before the first colon determines the dynamic type of the
value every cache write stores under it; consequently reads through the API
never hit the panicking branch of the type assertion on states produced by
the API. -/

/-- Dynamic type tags of stored cache values. -/
inductive VTag
  | vMovie
  | vTV
  | vEpisode
  | vSeason
  | vPagMovies
  | vPagTVs
  | vGenre
  | vActor
  | vMovieList
  | vTVList
deriving DecidableEq, Repr

/-- Tag of a stored value. -/
def valTag : CacheVal → VTag
  | .movie _ => .vMovie
  | .tvshow _ => .vTV
  | .episode _ => .vEpisode
  | .season _ => .vSeason
  | .pagMovies _ => .vPagMovies
  | .pagTVs _ => .vPagTVs
  | .genre _ => .vGenre
  | .actor _ => .vActor
  | .movieList _ => .vMovieList
  | .tvList _ => .vTVList

/-- Expected value tag of a key, by its leading kind segment. -/
def keyTag (k : Str) : Option VTag :=
  if firstSeg k = ("movie").data then some .vMovie
  else if firstSeg k = ("movie_short").data then some .vMovie
  else if firstSeg k = ("tv").data then some .vTV
  else if firstSeg k = ("tv_short").data then some .vTV
  else if firstSeg k = ("episode").data then some .vEpisode
  else if firstSeg k = ("season").data then some .vSeason
  else if firstSeg k = ("movie_search").data then some .vPagMovies
  else if firstSeg k = ("tv_search").data then some .vPagTVs
  else if firstSeg k = ("movie_genre").data then some .vGenre
  else if firstSeg k = ("tv_genre").data then some .vGenre
  else if firstSeg k = ("actor").data then some .vActor
  else if firstSeg k = ("movies_by_genre").data then some .vPagMovies
  else if firstSeg k = ("tvs_by_genre").data then some .vPagTVs
  else if firstSeg k = ("movies_by_actor").data then some .vPagMovies
  else if firstSeg k = ("tvs_by_actor").data then some .vPagTVs
  else if firstSeg k = ("movies_by_studio").data then some .vPagMovies
  else if firstSeg k = ("tvs_by_network").data then some .vPagTVs
  else if firstSeg k = ("movie_recommendations").data then some .vMovieList
  else if firstSeg k = ("tv_recommendations").data then some .vTVList
  else none

/-- An in-memory state is type consistent when every stored value's dynamic
type matches its key's expected tag. -/
def CacheInvariant (st : MemStore) : Prop :=
  ∀ k v, st k = some v → keyTag k = some (valTag v)

/-- One write operation of the in-memory cache API. -/
inductive MemOp
  | addMovie (m : Movie)
  | addMovieShort (m : Movie)
  | addTV (t : TVShow)
  | addTVShort (t : TVShow)
  | addEpisode (e : TVEpisode)
  | addSeason (tv sn : Int) (s : List TVEpisode)
  | addMovieSearch (q : Str) (p : Int) (r : PaginatedMovieResults)
  | addMovieSearchYear (q : Str) (p : Int) (year : Str) (r : PaginatedMovieResults)
  | addTVSearch (q : Str) (p : Int) (r : PaginatedTVShowResults)
  | addMovieGenre (g : Genre)
  | addTVGenre (g : Genre)
  | addActor (a : Actor)
  | addMoviesByGenre (g p : Int) (r : PaginatedMovieResults)
  | addTVsByGenre (g p : Int) (r : PaginatedTVShowResults)
  | addMoviesByActor (a p : Int) (r : PaginatedMovieResults)
  | addTVsByActor (a p : Int) (r : PaginatedTVShowResults)
  | addMoviesByStudio (s p : Int) (r : PaginatedMovieResults)
  | addTVsByNetwork (n p : Int) (r : PaginatedTVShowResults)
  | addMovieRecs (id : Int) (l : List Movie)
  | addTVRecs (id : Int) (l : List TVShow)

/-- Applies one write operation. -/
def applyMemOp (st : MemStore) : MemOp → MemStore
  | .addMovie m => inMemAddMovie st m
  | .addMovieShort m => inMemAddMovieShort st m
  | .addTV t => inMemAddTV st t
  | .addTVShort t => inMemAddTVShort st t
  | .addEpisode e => inMemAddEpisode st e
  | .addSeason tv sn s => inMemAddSeason st tv sn s
  | .addMovieSearch q p r => inMemAddMovieSearchResults st q p r
  | .addMovieSearchYear q p year r => inMemAddMovieSearchResultsYear st q p year r
  | .addTVSearch q p r => inMemAddTVSearchResults st q p r
  | .addMovieGenre g => inMemAddMovieGenre st g
  | .addTVGenre g => inMemAddTVGenre st g
  | .addActor a => inMemAddActor st a
  | .addMoviesByGenre g p r => inMemAddMoviesByGenre st g p r
  | .addTVsByGenre g p r => inMemAddTVsByGenre st g p r
  | .addMoviesByActor a p r => inMemAddMoviesByActor st a p r
  | .addTVsByActor a p r => inMemAddTVsByActor st a p r
  | .addMoviesByStudio s p r => inMemAddMoviesByStudio st s p r
  | .addTVsByNetwork n p r => inMemAddTVsByNetwork st n p r
  | .addMovieRecs id l => inMemAddMovieRecommendations st id l
  | .addTVRecs id l => inMemAddTVRecommendations st id l

/-- State reached by a sequence of API writes from the empty cache. -/
def applyMemOps (ops : List MemOp) : MemStore :=
  ops.foldl applyMemOp memEmpty

theorem keyTag_build (lit rest : Str) (h : ':' ∉ lit) :
    keyTag (lit ++ ':' :: rest) = keyTag (lit ++ [':']) := by
  unfold keyTag
  rw [firstSeg_build lit rest h, firstSeg_build lit [] h]

theorem memSet_invariant (st : MemStore) (k : Str) (v : CacheVal)
    (hst : CacheInvariant st) (hk : keyTag k = some (valTag v)) :
    CacheInvariant (memSet st k v) := by
  intro k2 v2 hkv
  unfold memSet at hkv
  by_cases he : k2 = k
  · rw [if_pos he] at hkv
    cases hkv
    rw [he, hk]
  · rw [if_neg he] at hkv
    exact hst k2 v2 hkv

theorem applyMemOp_invariant (st : MemStore) (op : MemOp)
    (hst : CacheInvariant st) : CacheInvariant (applyMemOp st op) := by
  cases op <;>
    refine memSet_invariant st _ _ hst ?_ <;>
    · simp only [movieKey, movieShortKey, tvKey, tvShortKey, episodeKey, seasonKey,
        movieSearchKey, movieSearchYearKey, tvSearchKey, movieGenreKey, tvGenreKey,
        actorKey, memMoviesByGenreKey, memTVsByGenreKey, memMoviesByActorKey,
        memTVsByActorKey, memMoviesByStudioKey, memTVsByNetworkKey, movieRecsKey,
        tvRecsKey]
      rw [keyTag_build _ _ (by decide)]
      simp [keyTag, firstSeg, valTag, List.takeWhile]

theorem memEmpty_invariant : CacheInvariant memEmpty := by
  intro k v hkv
  cases hkv

theorem applyMemOps_invariant (ops : List MemOp) : CacheInvariant (applyMemOps ops) := by
  suffices h : ∀ st, CacheInvariant st → CacheInvariant (ops.foldl applyMemOp st) from
    h memEmpty memEmpty_invariant
  induction ops with
  | nil => intro st hst; exact hst
  | cons op rest ih =>
      intro st hst
      exact ih (applyMemOp st op) (applyMemOp_invariant st op hst)

theorem memGetAs_ne_goPanic {α : Type} (st : MemStore) (k : Str)
    (proj : CacheVal → Option α) (t : VTag)
    (hst : CacheInvariant st) (hk : keyTag k = some t)
    (hproj : ∀ v, valTag v = t → (proj v).isSome) :
    memGetAs st k proj ≠ .goPanic := by
  unfold memGetAs
  cases h : st k with
  | none => simp
  | some v =>
      have htag := hst k v h
      rw [hk] at htag
      have htag2 : valTag v = t := by
        injection htag with h2
        exact h2.symm
      have hsome := hproj v htag2
      cases hp : proj v with
      | none => rw [hp] at hsome; cases hsome
      | some x => simp [hp]

/-! ## JSON serialization (remote-KV variant)

The remote cache stores json.Marshal output and decodes on read.  The byte
rendering of the JSON text is abstracted as a JSON tree (the Go library's
decode of its own encode recovers the tree); numbers are exact rationals, so
marshalling never fails on the embedded values.  Decoders mirror Go
json.Unmarshal into the target struct: an absent or null field keeps the zero
value, a type-mismatched field is a decode error. -/

/-- JSON tree. -/
inductive Json
  | null
  | num (q : ℚ)
  | str (s : Str)
  | arr (elems : List Json)
  | obj (fields : List (Str × Json))

/-- Field lookup in a JSON object body; absent fields behave like null. -/
def jField (fields : List (Str × Json)) (k : Str) : Json :=
  match fields with
  | [] => .null
  | (k2, v) :: rest => if k2 = k then v else jField rest k

/-- Decodes an integer field. -/
def decInt : Json → Option Int
  | .null => some 0
  | .num q => if q.den = 1 then some q.num else none
  | _ => none

/-- Decodes a float field (any JSON number). -/
def decQ : Json → Option ℚ
  | .null => some 0
  | .num q => some q
  | _ => none

/-- Decodes a string field. -/
def decStr : Json → Option Str
  | .null => some []
  | .str s => some s
  | _ => none

/-- Decodes the elements of a JSON array one by one. -/
def decListAux (dec : Json → Option α) : List Json → Option (List α)
  | [] => some []
  | j :: rest =>
      match dec j with
      | none => none
      | some x =>
          match decListAux dec rest with
          | none => none
          | some xs => some (x :: xs)

/-- Decodes a slice field (null decodes to the empty slice). -/
def decListWith (dec : Json → Option α) : Json → Option (List α)
  | .null => some []
  | .arr l => decListAux dec l
  | _ => none

/-- Decodes an optional (pointer) field: null is nil. -/
def decOptWith (dec : Json → Option α) : Json → Option (Option α)
  | .null => some none
  | j => (dec j).map some

theorem decListAux_map (dec : Json → Option α) (enc : α → Json) (l : List α)
    (h : ∀ x ∈ l, dec (enc x) = some x) :
    decListAux dec (l.map enc) = some l := by
  induction l with
  | nil => rfl
  | cons x rest ih =>
      simp only [List.map, decListAux, h x (List.mem_cons_self x rest)]
      rw [ih (fun y hy => h y (List.mem_cons_of_mem _ hy))]

theorem decListWith_map (dec : Json → Option α) (enc : α → Json) (l : List α)
    (h : ∀ x ∈ l, dec (enc x) = some x) :
    decListWith dec (.arr (l.map enc)) = some l :=
  decListAux_map dec enc l h

/-- json.Marshal of a Genre. -/
def encGenre (g : Genre) : Json :=
  .obj [(("id").data, .num g.id), (("name").data, .str g.name)]

/-- json.Unmarshal into a Genre. -/
def decGenre : Json → Option Genre
  | .obj fs => do
      let id ← decInt (jField fs (("id").data))
      let name ← decStr (jField fs (("name").data))
      some ⟨id, name⟩
  | _ => none

/-- json.Marshal of a Person. -/
def encPerson (p : Person) : Json :=
  .obj [(("id").data, .num p.id), (("character").data, .str p.character),
    (("name").data, .str p.name), (("profileUrl").data, .str p.profileUrl)]

/-- json.Unmarshal into a Person. -/
def decPerson : Json → Option Person
  | .obj fs => do
      let id ← decInt (jField fs (("id").data))
      let character ← decStr (jField fs (("character").data))
      let name ← decStr (jField fs (("name").data))
      let profileUrl ← decStr (jField fs (("profileUrl").data))
      some ⟨id, character, name, profileUrl⟩
  | _ => none

/-- json.Marshal of a Studio. -/
def encStudio (s : Studio) : Json :=
  .obj [(("id").data, .num s.id), (("name").data, .str s.name),
    (("logoUrl").data, .str s.logoUrl)]

/-- json.Unmarshal into a Studio. -/
def decStudio : Json → Option Studio
  | .obj fs => do
      let id ← decInt (jField fs (("id").data))
      let name ← decStr (jField fs (("name").data))
      let logoUrl ← decStr (jField fs (("logoUrl").data))
      some ⟨id, name, logoUrl⟩
  | _ => none

/-- json.Marshal of an Actor. -/
def encActor (a : Actor) : Json :=
  .obj [(("id").data, .num a.id), (("name").data, .str a.name),
    (("profileUrl").data, .str a.profileUrl), (("overview").data, .str a.overview)]

/-- json.Unmarshal into an Actor. -/
def decActor : Json → Option Actor
  | .obj fs => do
      let id ← decInt (jField fs (("id").data))
      let name ← decStr (jField fs (("name").data))
      let profileUrl ← decStr (jField fs (("profileUrl").data))
      let overview ← decStr (jField fs (("overview").data))
      some ⟨id, name, profileUrl, overview⟩
  | _ => none

/-- json.Marshal of a TVEpisode. -/
def encEpisode (e : TVEpisode) : Json :=
  .obj [(("id").data, .num e.id), (("tvShowId").data, .num e.tvShowId),
    (("posterUrl").data, .str e.posterUrl),
    (("episodeNumber").data, .num e.episodeNumber),
    (("seasonNumber").data, .num e.seasonNumber),
    (("name").data, .str e.name), (("overview").data, .str e.overview),
    (("airDate").data, .str e.airDate)]

/-- json.Unmarshal into a TVEpisode. -/
def decEpisode : Json → Option TVEpisode
  | .obj fs => do
      let id ← decInt (jField fs (("id").data))
      let tvShowId ← decInt (jField fs (("tvShowId").data))
      let posterUrl ← decStr (jField fs (("posterUrl").data))
      let episodeNumber ← decInt (jField fs (("episodeNumber").data))
      let seasonNumber ← decInt (jField fs (("seasonNumber").data))
      let name ← decStr (jField fs (("name").data))
      let overview ← decStr (jField fs (("overview").data))
      let airDate ← decStr (jField fs (("airDate").data))
      some ⟨id, tvShowId, posterUrl, episodeNumber, seasonNumber, name, overview, airDate⟩
  | _ => none

/-- json.Marshal of a Movie. -/
def encMovie (m : Movie) : Json :=
  .obj [(("id").data, .num m.id),
    (("actors").data, .arr (m.actors.map encPerson)),
    (("backdropUrl").data, .str m.backdropUrl),
    (("crew").data, .arr (m.crew.map encPerson)),
    (("genres").data, .arr (m.genres.map encGenre)),
    (("overview").data, .str m.overview),
    (("posterUrl").data, .str m.posterUrl),
    (("releaseDate").data, .str m.releaseDate),
    (("studios").data, .arr (m.studios.map encStudio)),
    (("title").data, .str m.title),
    (("voteAverage").data, .num m.voteAverage),
    (("voteCount").data, .num m.voteCount)]

/-- json.Unmarshal into a Movie. -/
def decMovie : Json → Option Movie
  | .obj fs => do
      let id ← decInt (jField fs (("id").data))
      let actors ← decListWith decPerson (jField fs (("actors").data))
      let backdropUrl ← decStr (jField fs (("backdropUrl").data))
      let crew ← decListWith decPerson (jField fs (("crew").data))
      let genres ← decListWith decGenre (jField fs (("genres").data))
      let overview ← decStr (jField fs (("overview").data))
      let posterUrl ← decStr (jField fs (("posterUrl").data))
      let releaseDate ← decStr (jField fs (("releaseDate").data))
      let studios ← decListWith decStudio (jField fs (("studios").data))
      let title ← decStr (jField fs (("title").data))
      let voteAverage ← decQ (jField fs (("voteAverage").data))
      let voteCount ← decInt (jField fs (("voteCount").data))
      some ⟨id, actors, backdropUrl, crew, genres, overview, posterUrl, releaseDate,
        studios, title, voteAverage, voteCount⟩
  | _ => none

/-- json.Marshal of a TVShow. -/
def encTVShow (t : TVShow) : Json :=
  .obj [(("id").data, .num t.id),
    (("actors").data, .arr (t.actors.map encPerson)),
    (("backdropUrl").data, .str t.backdropUrl),
    (("crew").data, .arr (t.crew.map encPerson)),
    (("genres").data, .arr (t.genres.map encGenre)),
    (("overview").data, .str t.overview),
    (("posterUrl").data, .str t.posterUrl),
    (("releaseDate").data, .str t.releaseDate),
    (("networks").data, .arr (t.networks.map encStudio)),
    (("status").data, .str t.status),
    (("nextEpisode").data,
      match t.nextEpisode with
      | none => .null
      | some e => encEpisode e),
    (("title").data, .str t.title),
    (("seasonsCount").data, .num t.seasonsCount),
    (("episodesCount").data, .num t.episodesCount),
    (("voteAverage").data, .num t.voteAverage),
    (("voteCount").data, .num t.voteCount)]

/-- json.Unmarshal into a TVShow. -/
def decTVShow : Json → Option TVShow
  | .obj fs => do
      let id ← decInt (jField fs (("id").data))
      let actors ← decListWith decPerson (jField fs (("actors").data))
      let backdropUrl ← decStr (jField fs (("backdropUrl").data))
      let crew ← decListWith decPerson (jField fs (("crew").data))
      let genres ← decListWith decGenre (jField fs (("genres").data))
      let overview ← decStr (jField fs (("overview").data))
      let posterUrl ← decStr (jField fs (("posterUrl").data))
      let releaseDate ← decStr (jField fs (("releaseDate").data))
      let networks ← decListWith decStudio (jField fs (("networks").data))
      let status ← decStr (jField fs (("status").data))
      let nextEpisode ← decOptWith decEpisode (jField fs (("nextEpisode").data))
      let title ← decStr (jField fs (("title").data))
      let seasonsCount ← decInt (jField fs (("seasonsCount").data))
      let episodesCount ← decInt (jField fs (("episodesCount").data))
      let voteAverage ← decQ (jField fs (("voteAverage").data))
      let voteCount ← decInt (jField fs (("voteCount").data))
      some ⟨id, actors, backdropUrl, crew, genres, overview, posterUrl, releaseDate,
        networks, status, nextEpisode, title, seasonsCount, episodesCount, voteAverage,
        voteCount⟩
  | _ => none

/-- json.Marshal of a paginated movie page (Go field names, no tags). -/
def encPagMovies (r : PaginatedMovieResults) : Json :=
  .obj [(("Results").data, .arr (r.results.map encMovie)),
    (("TotalPage").data, .num r.totalPage),
    (("TotalResult").data, .num r.totalResult)]

/-- json.Unmarshal into a paginated movie page. -/
def decPagMovies : Json → Option PaginatedMovieResults
  | .obj fs => do
      let results ← decListWith decMovie (jField fs (("Results").data))
      let totalPage ← decInt (jField fs (("TotalPage").data))
      let totalResult ← decInt (jField fs (("TotalResult").data))
      some ⟨results, totalPage, totalResult⟩
  | _ => none

/-- json.Marshal of a paginated TV page. -/
def encPagTVs (r : PaginatedTVShowResults) : Json :=
  .obj [(("Results").data, .arr (r.results.map encTVShow)),
    (("TotalPage").data, .num r.totalPage),
    (("TotalResult").data, .num r.totalResult)]

/-- json.Unmarshal into a paginated TV page. -/
def decPagTVs : Json → Option PaginatedTVShowResults
  | .obj fs => do
      let results ← decListWith decTVShow (jField fs (("Results").data))
      let totalPage ← decInt (jField fs (("TotalPage").data))
      let totalResult ← decInt (jField fs (("TotalResult").data))
      some ⟨results, totalPage, totalResult⟩
  | _ => none

/-- json.Marshal of a season (a plain array of episodes). -/
def encSeason (s : List TVEpisode) : Json := .arr (s.map encEpisode)

/-- json.Unmarshal into a season. -/
def decSeason : Json → Option (List TVEpisode) := decListWith decEpisode

/-- json.Marshal of a movie list. -/
def encMovieList (l : List Movie) : Json := .arr (l.map encMovie)

/-- json.Unmarshal into a movie list. -/
def decMovieList : Json → Option (List Movie) := decListWith decMovie

/-- json.Marshal of a TV show list. -/
def encTVList (l : List TVShow) : Json := .arr (l.map encTVShow)

/-- json.Unmarshal into a TV show list. -/
def decTVList : Json → Option (List TVShow) := decListWith decTVShow

theorem decGenre_encGenre (g : Genre) : decGenre (encGenre g) = some g := by
  cases g
  simp [encGenre, decGenre, jField, decInt, decStr]

theorem decPerson_encPerson (p : Person) : decPerson (encPerson p) = some p := by
  cases p
  simp [encPerson, decPerson, jField, decInt, decStr]

theorem decStudio_encStudio (s : Studio) : decStudio (encStudio s) = some s := by
  cases s
  simp [encStudio, decStudio, jField, decInt, decStr]

theorem decActor_encActor (a : Actor) : decActor (encActor a) = some a := by
  cases a
  simp [encActor, decActor, jField, decInt, decStr]

theorem decEpisode_encEpisode (e : TVEpisode) : decEpisode (encEpisode e) = some e := by
  cases e
  simp [encEpisode, decEpisode, jField, decInt, decStr]

theorem decMovie_encMovie (m : Movie) : decMovie (encMovie m) = some m := by
  cases m
  simp [encMovie, decMovie, jField, decInt, decStr, decQ,
    decListWith_map _ _ _ (fun x _ => decPerson_encPerson x),
    decListWith_map _ _ _ (fun x _ => decGenre_encGenre x),
    decListWith_map _ _ _ (fun x _ => decStudio_encStudio x)]

theorem decTVShow_encTVShow (t : TVShow) : decTVShow (encTVShow t) = some t := by
  cases t with
  | mk id actors backdropUrl crew genres overview posterUrl releaseDate networks status
      nextEpisode title seasonsCount episodesCount voteAverage voteCount =>
  cases nextEpisode with
  | none =>
      simp [encTVShow, decTVShow, jField, decInt, decStr, decQ, decOptWith,
        decListWith_map _ _ _ (fun x _ => decPerson_encPerson x),
        decListWith_map _ _ _ (fun x _ => decGenre_encGenre x),
        decListWith_map _ _ _ (fun x _ => decStudio_encStudio x)]
  | some e =>
      have he := decEpisode_encEpisode e
      simp [encTVShow, decTVShow, jField, decInt, decStr, decQ, decOptWith,
        decListWith_map _ _ _ (fun x _ => decPerson_encPerson x),
        decListWith_map _ _ _ (fun x _ => decGenre_encGenre x),
        decListWith_map _ _ _ (fun x _ => decStudio_encStudio x), encEpisode] at he ⊢
      simp [he]

theorem decPagMovies_encPagMovies (r : PaginatedMovieResults) :
    decPagMovies (encPagMovies r) = some r := by
  cases r
  simp [encPagMovies, decPagMovies, jField, decInt,
    decListWith_map _ _ _ (fun x _ => decMovie_encMovie x)]

theorem decPagTVs_encPagTVs (r : PaginatedTVShowResults) :
    decPagTVs (encPagTVs r) = some r := by
  cases r
  simp [encPagTVs, decPagTVs, jField, decInt,
    decListWith_map _ _ _ (fun x _ => decTVShow_encTVShow x)]

theorem decSeason_encSeason (s : List TVEpisode) : decSeason (encSeason s) = some s := by
  simp [encSeason, decSeason, decListWith_map _ _ _ (fun x _ => decEpisode_encEpisode x)]

theorem decMovieList_encMovieList (l : List Movie) :
    decMovieList (encMovieList l) = some l := by
  simp [encMovieList, decMovieList, decListWith_map _ _ _ (fun x _ => decMovie_encMovie x)]

theorem decTVList_encTVList (l : List TVShow) : decTVList (encTVList l) = some l := by
  simp [encTVList, decTVList, decListWith_map _ _ _ (fun x _ => decTVShow_encTVShow x)]

/-! ## Remote-KV cache (redis backed variant)

The store maps keys to marshalled values (JSON trees).  Per-write TTLs do
not affect reads within the TTL and are not part of the store model; the
expiration durations are computed by calculateExpirationDate, modelled
above.  Reads decode and report any absent or undecodable entry as a miss. -/

/-- Remote-KV store state. -/
def RedisStore := Str → Option Json

/-- Empty remote store. -/
def redisEmpty : RedisStore := fun _ => none

/-- Point update of the remote store (client.Set). -/
def redisSet (st : RedisStore) (k : Str) (j : Json) : RedisStore :=
  fun k2 => if k2 = k then some j else st k2

/-- Generic remote getter: absent keys and failed decodes are misses; there
is no panicking branch. -/
def redisGetAs (st : RedisStore) (k : Str) (dec : Json → Option α) : GetRes α :=
  match st k with
  | none => .miss
  | some j =>
      match dec j with
      | none => .miss
      | some v => .hit v

/-- redisMediaCache.AddMovie (TTL from calculateExpirationDate on the
release date). -/
def redisAddMovie (st : RedisStore) (m : Movie) : RedisStore :=
  redisSet st (movieKey m.id) (encMovie m)

/-- redisMediaCache.GetMovie. -/
def redisGetMovie (st : RedisStore) (id : Int) : GetRes Movie :=
  redisGetAs st (movieKey id) decMovie

/-- redisMediaCache.AddMovieShort. -/
def redisAddMovieShort (st : RedisStore) (m : Movie) : RedisStore :=
  redisSet st (movieShortKey m.id) (encMovie m)

/-- redisMediaCache.GetMovieShort. -/
def redisGetMovieShort (st : RedisStore) (id : Int) : GetRes Movie :=
  redisGetAs st (movieShortKey id) decMovie

/-- redisMediaCache.AddTV. -/
def redisAddTV (st : RedisStore) (t : TVShow) : RedisStore :=
  redisSet st (tvKey t.id) (encTVShow t)

/-- redisMediaCache.GetTV. -/
def redisGetTV (st : RedisStore) (id : Int) : GetRes TVShow :=
  redisGetAs st (tvKey id) decTVShow

/-- redisMediaCache.AddTVShort. -/
def redisAddTVShort (st : RedisStore) (t : TVShow) : RedisStore :=
  redisSet st (tvShortKey t.id) (encTVShow t)

/-- redisMediaCache.GetTVShort. -/
def redisGetTVShort (st : RedisStore) (id : Int) : GetRes TVShow :=
  redisGetAs st (tvShortKey id) decTVShow

/-- redisMediaCache.AddEpisode. -/
def redisAddEpisode (st : RedisStore) (e : TVEpisode) : RedisStore :=
  redisSet st (episodeKey e.tvShowId e.seasonNumber e.episodeNumber) (encEpisode e)

/-- redisMediaCache.GetEpisode. -/
def redisGetEpisode (st : RedisStore) (tv sn en : Int) : GetRes TVEpisode :=
  redisGetAs st (episodeKey tv sn en) decEpisode

/-- redisMediaCache.AddSeason: stores the episode list under the season key
and then caches each episode individually. -/
def redisAddSeason (st : RedisStore) (tv sn : Int) (s : List TVEpisode) : RedisStore :=
  s.foldl redisAddEpisode (redisSet st (seasonKey tv sn) (encSeason s))

/-- redisMediaCache.GetSeason. -/
def redisGetSeason (st : RedisStore) (tv sn : Int) : GetRes (List TVEpisode) :=
  redisGetAs st (seasonKey tv sn) decSeason

/-- redisMediaCache.AddMovieSearchResults (no adult parameter in this
revision). -/
def redisAddMovieSearchResults (st : RedisStore) (q : Str) (p : Int)
    (r : PaginatedMovieResults) : RedisStore :=
  redisSet st (movieSearchKey q p) (encPagMovies r)

/-- redisMediaCache.GetMovieSearchResults. -/
def redisGetMovieSearchResults (st : RedisStore) (q : Str) (p : Int) :
    GetRes PaginatedMovieResults :=
  redisGetAs st (movieSearchKey q p) decPagMovies

/-- redisMediaCache.AddMovieSearchResultsYear. -/
def redisAddMovieSearchResultsYear (st : RedisStore) (q : Str) (p : Int) (year : Str)
    (r : PaginatedMovieResults) : RedisStore :=
  redisSet st (movieSearchYearKey q p year) (encPagMovies r)

/-- redisMediaCache.GetMovieSearchResultsYear. -/
def redisGetMovieSearchResultsYear (st : RedisStore) (q : Str) (p : Int) (year : Str) :
    GetRes PaginatedMovieResults :=
  redisGetAs st (movieSearchYearKey q p year) decPagMovies

/-- redisMediaCache.AddTVSearchResults. -/
def redisAddTVSearchResults (st : RedisStore) (q : Str) (p : Int)
    (r : PaginatedTVShowResults) : RedisStore :=
  redisSet st (tvSearchKey q p) (encPagTVs r)

/-- redisMediaCache.GetTVSearchResults. -/
def redisGetTVSearchResults (st : RedisStore) (q : Str) (p : Int) :
    GetRes PaginatedTVShowResults :=
  redisGetAs st (tvSearchKey q p) decPagTVs

/-- redisMediaCache.AddMovieGenre. -/
def redisAddMovieGenre (st : RedisStore) (g : Genre) : RedisStore :=
  redisSet st (movieGenreKey g.id) (encGenre g)

/-- redisMediaCache.GetMovieGenre. -/
def redisGetMovieGenre (st : RedisStore) (id : Int) : GetRes Genre :=
  redisGetAs st (movieGenreKey id) decGenre

/-- redisMediaCache.AddTVGenre. -/
def redisAddTVGenre (st : RedisStore) (g : Genre) : RedisStore :=
  redisSet st (tvGenreKey g.id) (encGenre g)

/-- redisMediaCache.GetTVGenre. -/
def redisGetTVGenre (st : RedisStore) (id : Int) : GetRes Genre :=
  redisGetAs st (tvGenreKey id) decGenre

/-- redisMediaCache.AddActor. -/
def redisAddActor (st : RedisStore) (a : Actor) : RedisStore :=
  redisSet st (actorKey a.id) (encActor a)

/-- redisMediaCache.GetActor. -/
def redisGetActor (st : RedisStore) (id : Int) : GetRes Actor :=
  redisGetAs st (actorKey id) decActor

/-- redisMediaCache.AddMoviesByGenre (movie_genre prefix in the source). -/
def redisAddMoviesByGenre (st : RedisStore) (g p : Int)
    (r : PaginatedMovieResults) : RedisStore :=
  redisSet st (redisMoviesByGenreKey g p) (encPagMovies r)

/-- redisMediaCache.GetMoviesByGenre. -/
def redisGetMoviesByGenre (st : RedisStore) (g p : Int) : GetRes PaginatedMovieResults :=
  redisGetAs st (redisMoviesByGenreKey g p) decPagMovies

/-- redisMediaCache.AddTVsByGenre (tv_genre prefix in the source). -/
def redisAddTVsByGenre (st : RedisStore) (g p : Int)
    (r : PaginatedTVShowResults) : RedisStore :=
  redisSet st (redisTVsByGenreKey g p) (encPagTVs r)

/-- redisMediaCache.GetTVsByGenre. -/
def redisGetTVsByGenre (st : RedisStore) (g p : Int) : GetRes PaginatedTVShowResults :=
  redisGetAs st (redisTVsByGenreKey g p) decPagTVs

/-- redisMediaCache.AddMoviesByActor (movie_actor prefix in the source). -/
def redisAddMoviesByActor (st : RedisStore) (a p : Int)
    (r : PaginatedMovieResults) : RedisStore :=
  redisSet st (redisMoviesByActorKey a p) (encPagMovies r)

/-- redisMediaCache.GetMoviesByActor. -/
def redisGetMoviesByActor (st : RedisStore) (a p : Int) : GetRes PaginatedMovieResults :=
  redisGetAs st (redisMoviesByActorKey a p) decPagMovies

/-- redisMediaCache.AddTVsByActor (tv_actor prefix in the source). -/
def redisAddTVsByActor (st : RedisStore) (a p : Int)
    (r : PaginatedTVShowResults) : RedisStore :=
  redisSet st (redisTVsByActorKey a p) (encPagTVs r)

/-- redisMediaCache.GetTVsByActor. -/
def redisGetTVsByActor (st : RedisStore) (a p : Int) : GetRes PaginatedTVShowResults :=
  redisGetAs st (redisTVsByActorKey a p) decPagTVs

/-- redisMediaCache.AddMoviesByStudio (movie_studio prefix in the source). -/
def redisAddMoviesByStudio (st : RedisStore) (s p : Int)
    (r : PaginatedMovieResults) : RedisStore :=
  redisSet st (redisMoviesByStudioKey s p) (encPagMovies r)

/-- redisMediaCache.GetMoviesByStudio. -/
def redisGetMoviesByStudio (st : RedisStore) (s p : Int) : GetRes PaginatedMovieResults :=
  redisGetAs st (redisMoviesByStudioKey s p) decPagMovies

/-- redisMediaCache.AddTVsByNetwork (tv_network prefix in the source). -/
def redisAddTVsByNetwork (st : RedisStore) (n p : Int)
    (r : PaginatedTVShowResults) : RedisStore :=
  redisSet st (redisTVsByNetworkKey n p) (encPagTVs r)

/-- redisMediaCache.GetTVsByNetwork. -/
def redisGetTVsByNetwork (st : RedisStore) (n p : Int) : GetRes PaginatedTVShowResults :=
  redisGetAs st (redisTVsByNetworkKey n p) decPagTVs

/-- redisMediaCache.AddMovieRecommendations. -/
def redisAddMovieRecommendations (st : RedisStore) (id : Int) (l : List Movie) :
    RedisStore :=
  redisSet st (movieRecsKey id) (encMovieList l)

/-- redisMediaCache.GetMovieRecommendations. -/
def redisGetMovieRecommendations (st : RedisStore) (id : Int) : GetRes (List Movie) :=
  redisGetAs st (movieRecsKey id) decMovieList

/-- redisMediaCache.AddTVRecommendations. -/
def redisAddTVRecommendations (st : RedisStore) (id : Int) (l : List TVShow) :
    RedisStore :=
  redisSet st (tvRecsKey id) (encTVList l)

/-- redisMediaCache.GetTVRecommendations. -/
def redisGetTVRecommendations (st : RedisStore) (id : Int) : GetRes (List TVShow) :=
  redisGetAs st (tvRecsKey id) decTVList

/-! ## Key shape facts -/

theorem build_key_ne (l1 l2 r1 r2 : Str) (h1 : ':' ∉ l1) (h2 : ':' ∉ l2)
    (hne : l1 ≠ l2) : l1 ++ ':' :: r1 ≠ l2 ++ ':' :: r2 := by
  intro he
  apply hne
  rw [← firstSeg_build l1 r1 h1, he, firstSeg_build l2 r2 h2]

theorem colons_build (lit r : Str) :
    colons (lit ++ ':' :: r) = colons lit + (colons r + 1) := by
  simp [colons, List.count_append, List.count_cons]

theorem key_ne_of_colons (k1 k2 : Str) (h : colons k1 ≠ colons k2) : k1 ≠ k2 := by
  intro he
  exact h (he ▸ rfl)

theorem two_arg_key_ne_one_arg_key (lit : Str) (a b c : Int) :
    lit ++ ':' :: (itoa a ++ ':' :: itoa b) ≠ lit ++ ':' :: itoa c := by
  apply key_ne_of_colons
  rw [colons_build lit (itoa a ++ ':' :: itoa b), colons_build lit (itoa c),
    colons_build (itoa a) (itoa b), colons_itoa, colons_itoa, colons_itoa]
  omega

theorem memSet_get_self {α : Type} (st : MemStore) (k : Str) (v : CacheVal)
    (proj : CacheVal → Option α) (x : α) (h : proj v = some x) :
    memGetAs (memSet st k v) k proj = .hit x := by
  simp [memGetAs, memSet, h]

theorem redisSet_get_self {α : Type} (st : RedisStore) (k : Str) (j : Json)
    (dec : Json → Option α) (v : α) (h : dec j = some v) :
    redisGetAs (redisSet st k j) k dec = .hit v := by
  simp [redisGetAs, redisSet, h]

theorem foldl_redisAddEpisode_season (s : List TVEpisode) (st : RedisStore)
    (tv sn : Int) :
    (s.foldl redisAddEpisode st) (seasonKey tv sn) = st (seasonKey tv sn) := by
  induction s generalizing st with
  | nil => rfl
  | cons e rest ih =>
      rw [List.foldl_cons, ih]
      unfold redisAddEpisode redisSet
      rw [if_neg]
      exact build_key_ne _ _ _ _ (by decide) (by decide) (by decide)

/-- C10: in both cache variants, a get performed immediately after a
successful add with the same key arguments returns a value equal to the one
added; the remote variant round-trips through JSON serialization. -/
theorem c10_get_after_add :
    (∀ st m, inMemGetMovie (inMemAddMovie st m) m.id = .hit m) ∧
    (∀ st m, inMemGetMovieShort (inMemAddMovieShort st m) m.id = .hit m) ∧
    (∀ st t, inMemGetTV (inMemAddTV st t) t.id = .hit t) ∧
    (∀ st t, inMemGetTVShort (inMemAddTVShort st t) t.id = .hit t) ∧
    (∀ st e, inMemGetEpisode (inMemAddEpisode st e) e.tvShowId e.seasonNumber
      e.episodeNumber = .hit e) ∧
    (∀ st tv sn s, inMemGetSeason (inMemAddSeason st tv sn s) tv sn = .hit s) ∧
    (∀ st q p r, inMemGetMovieSearchResults (inMemAddMovieSearchResults st q p r) q p =
      .hit r) ∧
    (∀ st q p y r, inMemGetMovieSearchResultsYear
      (inMemAddMovieSearchResultsYear st q p y r) q p y = .hit r) ∧
    (∀ st q p r, inMemGetTVSearchResults (inMemAddTVSearchResults st q p r) q p =
      .hit r) ∧
    (∀ st g, inMemGetMovieGenre (inMemAddMovieGenre st g) g.id = .hit g) ∧
    (∀ st g, inMemGetTVGenre (inMemAddTVGenre st g) g.id = .hit g) ∧
    (∀ st a, inMemGetActor (inMemAddActor st a) a.id = .hit a) ∧
    (∀ st g p r, inMemGetMoviesByGenre (inMemAddMoviesByGenre st g p r) g p = .hit r) ∧
    (∀ st g p r, inMemGetTVsByGenre (inMemAddTVsByGenre st g p r) g p = .hit r) ∧
    (∀ st a p r, inMemGetMoviesByActor (inMemAddMoviesByActor st a p r) a p = .hit r) ∧
    (∀ st a p r, inMemGetTVsByActor (inMemAddTVsByActor st a p r) a p = .hit r) ∧
    (∀ st s p r, inMemGetMoviesByStudio (inMemAddMoviesByStudio st s p r) s p =
      .hit r) ∧
    (∀ st n p r, inMemGetTVsByNetwork (inMemAddTVsByNetwork st n p r) n p = .hit r) ∧
    (∀ st i l, inMemGetMovieRecommendations (inMemAddMovieRecommendations st i l) i =
      .hit l) ∧
    (∀ st i l, inMemGetTVRecommendations (inMemAddTVRecommendations st i l) i =
      .hit l) ∧
    (∀ st m, redisGetMovie (redisAddMovie st m) m.id = .hit m) ∧
    (∀ st m, redisGetMovieShort (redisAddMovieShort st m) m.id = .hit m) ∧
    (∀ st t, redisGetTV (redisAddTV st t) t.id = .hit t) ∧
    (∀ st t, redisGetTVShort (redisAddTVShort st t) t.id = .hit t) ∧
    (∀ st e, redisGetEpisode (redisAddEpisode st e) e.tvShowId e.seasonNumber
      e.episodeNumber = .hit e) ∧
    (∀ st tv sn s, redisGetSeason (redisAddSeason st tv sn s) tv sn = .hit s) ∧
    (∀ st q p r, redisGetMovieSearchResults (redisAddMovieSearchResults st q p r) q p =
      .hit r) ∧
    (∀ st q p y r, redisGetMovieSearchResultsYear
      (redisAddMovieSearchResultsYear st q p y r) q p y = .hit r) ∧
    (∀ st q p r, redisGetTVSearchResults (redisAddTVSearchResults st q p r) q p =
      .hit r) ∧
    (∀ st g, redisGetMovieGenre (redisAddMovieGenre st g) g.id = .hit g) ∧
    (∀ st g, redisGetTVGenre (redisAddTVGenre st g) g.id = .hit g) ∧
    (∀ st a, redisGetActor (redisAddActor st a) a.id = .hit a) ∧
    (∀ st g p r, redisGetMoviesByGenre (redisAddMoviesByGenre st g p r) g p = .hit r) ∧
    (∀ st g p r, redisGetTVsByGenre (redisAddTVsByGenre st g p r) g p = .hit r) ∧
    (∀ st a p r, redisGetMoviesByActor (redisAddMoviesByActor st a p r) a p = .hit r) ∧
    (∀ st a p r, redisGetTVsByActor (redisAddTVsByActor st a p r) a p = .hit r) ∧
    (∀ st s p r, redisGetMoviesByStudio (redisAddMoviesByStudio st s p r) s p =
      .hit r) ∧
    (∀ st n p r, redisGetTVsByNetwork (redisAddTVsByNetwork st n p r) n p = .hit r) ∧
    (∀ st i l, redisGetMovieRecommendations (redisAddMovieRecommendations st i l) i =
      .hit l) ∧
    (∀ st i l, redisGetTVRecommendations (redisAddTVRecommendations st i l) i =
      .hit l) := by
  refine ⟨?_, ?_, ?_, ?_, ?_, ?_, ?_, ?_, ?_, ?_, ?_, ?_, ?_, ?_, ?_, ?_, ?_, ?_, ?_,
    ?_, ?_, ?_, ?_, ?_, ?_, ?_, ?_, ?_, ?_, ?_, ?_, ?_, ?_, ?_, ?_, ?_, ?_, ?_, ?_, ?_⟩
  · exact fun st m => memSet_get_self _ _ _ _ _ rfl
  · exact fun st m => memSet_get_self _ _ _ _ _ rfl
  · exact fun st t => memSet_get_self _ _ _ _ _ rfl
  · exact fun st t => memSet_get_self _ _ _ _ _ rfl
  · exact fun st e => memSet_get_self _ _ _ _ _ rfl
  · exact fun st tv sn s => memSet_get_self _ _ _ _ _ rfl
  · exact fun st q p r => memSet_get_self _ _ _ _ _ rfl
  · exact fun st q p y r => memSet_get_self _ _ _ _ _ rfl
  · exact fun st q p r => memSet_get_self _ _ _ _ _ rfl
  · exact fun st g => memSet_get_self _ _ _ _ _ rfl
  · exact fun st g => memSet_get_self _ _ _ _ _ rfl
  · exact fun st a => memSet_get_self _ _ _ _ _ rfl
  · exact fun st g p r => memSet_get_self _ _ _ _ _ rfl
  · exact fun st g p r => memSet_get_self _ _ _ _ _ rfl
  · exact fun st a p r => memSet_get_self _ _ _ _ _ rfl
  · exact fun st a p r => memSet_get_self _ _ _ _ _ rfl
  · exact fun st s p r => memSet_get_self _ _ _ _ _ rfl
  · exact fun st n p r => memSet_get_self _ _ _ _ _ rfl
  · exact fun st i l => memSet_get_self _ _ _ _ _ rfl
  · exact fun st i l => memSet_get_self _ _ _ _ _ rfl
  · exact fun st m => redisSet_get_self _ _ _ _ _ (decMovie_encMovie m)
  · exact fun st m => redisSet_get_self _ _ _ _ _ (decMovie_encMovie m)
  · exact fun st t => redisSet_get_self _ _ _ _ _ (decTVShow_encTVShow t)
  · exact fun st t => redisSet_get_self _ _ _ _ _ (decTVShow_encTVShow t)
  · exact fun st e => redisSet_get_self _ _ _ _ _ (decEpisode_encEpisode e)
  · intro st tv sn s
    unfold redisGetSeason redisAddSeason redisGetAs
    rw [foldl_redisAddEpisode_season]
    have h := redisSet_get_self st (seasonKey tv sn) (encSeason s) decSeason s
      (decSeason_encSeason s)
    unfold redisGetAs at h
    simpa [redisSet] using h
  · exact fun st q p r => redisSet_get_self _ _ _ _ _ (decPagMovies_encPagMovies r)
  · exact fun st q p y r => redisSet_get_self _ _ _ _ _ (decPagMovies_encPagMovies r)
  · exact fun st q p r => redisSet_get_self _ _ _ _ _ (decPagTVs_encPagTVs r)
  · exact fun st g => redisSet_get_self _ _ _ _ _ (decGenre_encGenre g)
  · exact fun st g => redisSet_get_self _ _ _ _ _ (decGenre_encGenre g)
  · exact fun st a => redisSet_get_self _ _ _ _ _ (decActor_encActor a)
  · exact fun st g p r => redisSet_get_self _ _ _ _ _ (decPagMovies_encPagMovies r)
  · exact fun st g p r => redisSet_get_self _ _ _ _ _ (decPagTVs_encPagTVs r)
  · exact fun st a p r => redisSet_get_self _ _ _ _ _ (decPagMovies_encPagMovies r)
  · exact fun st a p r => redisSet_get_self _ _ _ _ _ (decPagTVs_encPagTVs r)
  · exact fun st s p r => redisSet_get_self _ _ _ _ _ (decPagMovies_encPagMovies r)
  · exact fun st n p r => redisSet_get_self _ _ _ _ _ (decPagTVs_encPagTVs r)
  · exact fun st i l => redisSet_get_self _ _ _ _ _ (decMovieList_encMovieList l)
  · exact fun st i l => redisSet_get_self _ _ _ _ _ (decTVList_encTVList l)

/-- C7 (counterexample): the remote-KV AddMoviesByGenre writes under the
movie_genre prefix, not the contract movies_by_genre prefix. -/
theorem c7_counterexample :
    redisMoviesByGenreKey 7 1 = ("movie_genre:7:1").data ∧
    redisMoviesByGenreKey 7 1 ≠ ("movies_by_genre:7:1").data := by
  constructor
  · decide
  · decide

/-- C7 (amended): the in-memory variant stores discover pages under the six
contract prefixes; the remote-KV variant instead uses the prefixes
movie_genre, tv_genre, movie_actor, tv_actor, movie_studio and tv_network;
in both variants the discover keys remain distinct from the genre-entity
keys (an id rendered by Itoa contains no colon, so the two-argument discover
keys have one more colon than the entity keys), hence a discover write is
never read back as a Genre entry. -/
theorem c7_discover_key_prefixes :
    (∀ g p : Int, firstSeg (memMoviesByGenreKey g p) = ("movies_by_genre").data) ∧
    (∀ g p : Int, firstSeg (memTVsByGenreKey g p) = ("tvs_by_genre").data) ∧
    (∀ a p : Int, firstSeg (memMoviesByActorKey a p) = ("movies_by_actor").data) ∧
    (∀ a p : Int, firstSeg (memTVsByActorKey a p) = ("tvs_by_actor").data) ∧
    (∀ s p : Int, firstSeg (memMoviesByStudioKey s p) = ("movies_by_studio").data) ∧
    (∀ n p : Int, firstSeg (memTVsByNetworkKey n p) = ("tvs_by_network").data) ∧
    (∀ g p : Int, firstSeg (redisMoviesByGenreKey g p) = ("movie_genre").data) ∧
    (∀ g p : Int, firstSeg (redisTVsByGenreKey g p) = ("tv_genre").data) ∧
    (∀ a p : Int, firstSeg (redisMoviesByActorKey a p) = ("movie_actor").data) ∧
    (∀ a p : Int, firstSeg (redisTVsByActorKey a p) = ("tv_actor").data) ∧
    (∀ s p : Int, firstSeg (redisMoviesByStudioKey s p) = ("movie_studio").data) ∧
    (∀ n p : Int, firstSeg (redisTVsByNetworkKey n p) = ("tv_network").data) ∧
    (∀ g p i : Int, memMoviesByGenreKey g p ≠ movieGenreKey i) ∧
    (∀ g p i : Int, memTVsByGenreKey g p ≠ tvGenreKey i) ∧
    (∀ g p i : Int, redisMoviesByGenreKey g p ≠ movieGenreKey i) ∧
    (∀ g p i : Int, redisTVsByGenreKey g p ≠ tvGenreKey i) ∧
    (∀ st g p r i, inMemGetMovieGenre (inMemAddMoviesByGenre st g p r) i =
      inMemGetMovieGenre st i) ∧
    (∀ st g p r i, inMemGetTVGenre (inMemAddTVsByGenre st g p r) i =
      inMemGetTVGenre st i) ∧
    (∀ st g p r i, redisGetMovieGenre (redisAddMoviesByGenre st g p r) i =
      redisGetMovieGenre st i) ∧
    (∀ st g p r i, redisGetTVGenre (redisAddTVsByGenre st g p r) i =
      redisGetTVGenre st i) := by
  refine ⟨?_, ?_, ?_, ?_, ?_, ?_, ?_, ?_, ?_, ?_, ?_, ?_, ?_, ?_, ?_, ?_, ?_, ?_, ?_, ?_⟩
  · exact fun g p => firstSeg_build _ _ (by decide)
  · exact fun g p => firstSeg_build _ _ (by decide)
  · exact fun a p => firstSeg_build _ _ (by decide)
  · exact fun a p => firstSeg_build _ _ (by decide)
  · exact fun s p => firstSeg_build _ _ (by decide)
  · exact fun n p => firstSeg_build _ _ (by decide)
  · exact fun g p => firstSeg_build _ _ (by decide)
  · exact fun g p => firstSeg_build _ _ (by decide)
  · exact fun a p => firstSeg_build _ _ (by decide)
  · exact fun a p => firstSeg_build _ _ (by decide)
  · exact fun s p => firstSeg_build _ _ (by decide)
  · exact fun n p => firstSeg_build _ _ (by decide)
  · exact fun g p i => build_key_ne _ _ _ _ (by decide) (by decide) (by decide)
  · exact fun g p i => build_key_ne _ _ _ _ (by decide) (by decide) (by decide)
  · exact fun g p i => two_arg_key_ne_one_arg_key _ g p i
  · exact fun g p i => two_arg_key_ne_one_arg_key _ g p i
  · intro st g p r i
    unfold inMemGetMovieGenre inMemAddMoviesByGenre memGetAs memSet
    rw [if_neg (fun h =>
      absurd h.symm (build_key_ne _ _ _ _ (by decide) (by decide) (by decide)))]
  · intro st g p r i
    unfold inMemGetTVGenre inMemAddTVsByGenre memGetAs memSet
    rw [if_neg (fun h =>
      absurd h.symm (build_key_ne _ _ _ _ (by decide) (by decide) (by decide)))]
  · intro st g p r i
    unfold redisGetMovieGenre redisAddMoviesByGenre redisGetAs redisSet
    rw [if_neg (fun h => absurd h.symm (two_arg_key_ne_one_arg_key _ g p i))]
  · intro st g p r i
    unfold redisGetTVGenre redisAddTVsByGenre redisGetAs redisSet
    rw [if_neg (fun h => absurd h.symm (two_arg_key_ne_one_arg_key _ g p i))]

theorem keyTag_movieKey (id : Int) : keyTag (movieKey id) = some .vMovie := by
  unfold movieKey
  rw [keyTag_build _ _ (by decide)]
  simp [keyTag, firstSeg, List.takeWhile]

theorem keyTag_movieShortKey (id : Int) : keyTag (movieShortKey id) = some .vMovie := by
  unfold movieShortKey
  rw [keyTag_build _ _ (by decide)]
  simp [keyTag, firstSeg, List.takeWhile]

theorem keyTag_tvKey (id : Int) : keyTag (tvKey id) = some .vTV := by
  unfold tvKey
  rw [keyTag_build _ _ (by decide)]
  simp [keyTag, firstSeg, List.takeWhile]

theorem keyTag_tvShortKey (id : Int) : keyTag (tvShortKey id) = some .vTV := by
  unfold tvShortKey
  rw [keyTag_build _ _ (by decide)]
  simp [keyTag, firstSeg, List.takeWhile]

theorem keyTag_episodeKey (tv sn en : Int) :
    keyTag (episodeKey tv sn en) = some .vEpisode := by
  unfold episodeKey
  rw [keyTag_build _ _ (by decide)]
  simp [keyTag, firstSeg, List.takeWhile]

theorem keyTag_seasonKey (tv sn : Int) : keyTag (seasonKey tv sn) = some .vSeason := by
  unfold seasonKey
  rw [keyTag_build _ _ (by decide)]
  simp [keyTag, firstSeg, List.takeWhile]

theorem keyTag_movieSearchKey (q : Str) (p : Int) :
    keyTag (movieSearchKey q p) = some .vPagMovies := by
  unfold movieSearchKey
  rw [keyTag_build _ _ (by decide)]
  simp [keyTag, firstSeg, List.takeWhile]

theorem keyTag_movieSearchYearKey (q : Str) (p : Int) (y : Str) :
    keyTag (movieSearchYearKey q p y) = some .vPagMovies := by
  unfold movieSearchYearKey
  rw [keyTag_build _ _ (by decide)]
  simp [keyTag, firstSeg, List.takeWhile]

theorem keyTag_tvSearchKey (q : Str) (p : Int) :
    keyTag (tvSearchKey q p) = some .vPagTVs := by
  unfold tvSearchKey
  rw [keyTag_build _ _ (by decide)]
  simp [keyTag, firstSeg, List.takeWhile]

theorem keyTag_movieGenreKey (id : Int) : keyTag (movieGenreKey id) = some .vGenre := by
  unfold movieGenreKey
  rw [keyTag_build _ _ (by decide)]
  simp [keyTag, firstSeg, List.takeWhile]

theorem keyTag_tvGenreKey (id : Int) : keyTag (tvGenreKey id) = some .vGenre := by
  unfold tvGenreKey
  rw [keyTag_build _ _ (by decide)]
  simp [keyTag, firstSeg, List.takeWhile]

theorem keyTag_actorKey (id : Int) : keyTag (actorKey id) = some .vActor := by
  unfold actorKey
  rw [keyTag_build _ _ (by decide)]
  simp [keyTag, firstSeg, List.takeWhile]

theorem keyTag_memMoviesByGenreKey (g p : Int) :
    keyTag (memMoviesByGenreKey g p) = some .vPagMovies := by
  unfold memMoviesByGenreKey
  rw [keyTag_build _ _ (by decide)]
  simp [keyTag, firstSeg, List.takeWhile]

theorem keyTag_memTVsByGenreKey (g p : Int) :
    keyTag (memTVsByGenreKey g p) = some .vPagTVs := by
  unfold memTVsByGenreKey
  rw [keyTag_build _ _ (by decide)]
  simp [keyTag, firstSeg, List.takeWhile]

theorem keyTag_memMoviesByActorKey (a p : Int) :
    keyTag (memMoviesByActorKey a p) = some .vPagMovies := by
  unfold memMoviesByActorKey
  rw [keyTag_build _ _ (by decide)]
  simp [keyTag, firstSeg, List.takeWhile]

theorem keyTag_memTVsByActorKey (a p : Int) :
    keyTag (memTVsByActorKey a p) = some .vPagTVs := by
  unfold memTVsByActorKey
  rw [keyTag_build _ _ (by decide)]
  simp [keyTag, firstSeg, List.takeWhile]

theorem keyTag_memMoviesByStudioKey (s p : Int) :
    keyTag (memMoviesByStudioKey s p) = some .vPagMovies := by
  unfold memMoviesByStudioKey
  rw [keyTag_build _ _ (by decide)]
  simp [keyTag, firstSeg, List.takeWhile]

theorem keyTag_memTVsByNetworkKey (n p : Int) :
    keyTag (memTVsByNetworkKey n p) = some .vPagTVs := by
  unfold memTVsByNetworkKey
  rw [keyTag_build _ _ (by decide)]
  simp [keyTag, firstSeg, List.takeWhile]

theorem keyTag_movieRecsKey (id : Int) : keyTag (movieRecsKey id) = some .vMovieList := by
  unfold movieRecsKey
  rw [keyTag_build _ _ (by decide)]
  simp [keyTag, firstSeg, List.takeWhile]

theorem keyTag_tvRecsKey (id : Int) : keyTag (tvRecsKey id) = some .vTVList := by
  unfold tvRecsKey
  rw [keyTag_build _ _ (by decide)]
  simp [keyTag, firstSeg, List.takeWhile]

theorem asMovie_total : ∀ v, valTag v = .vMovie → (asMovie v).isSome := by
  intro v hv
  cases v <;> simp_all [valTag, asMovie]

theorem asTVShow_total : ∀ v, valTag v = .vTV → (asTVShow v).isSome := by
  intro v hv
  cases v <;> simp_all [valTag, asTVShow]

theorem asEpisode_total : ∀ v, valTag v = .vEpisode → (asEpisode v).isSome := by
  intro v hv
  cases v <;> simp_all [valTag, asEpisode]

theorem asSeason_total : ∀ v, valTag v = .vSeason → (asSeason v).isSome := by
  intro v hv
  cases v <;> simp_all [valTag, asSeason]

theorem asPagMovies_total : ∀ v, valTag v = .vPagMovies → (asPagMovies v).isSome := by
  intro v hv
  cases v <;> simp_all [valTag, asPagMovies]

theorem asPagTVs_total : ∀ v, valTag v = .vPagTVs → (asPagTVs v).isSome := by
  intro v hv
  cases v <;> simp_all [valTag, asPagTVs]

theorem asGenre_total : ∀ v, valTag v = .vGenre → (asGenre v).isSome := by
  intro v hv
  cases v <;> simp_all [valTag, asGenre]

theorem asActor_total : ∀ v, valTag v = .vActor → (asActor v).isSome := by
  intro v hv
  cases v <;> simp_all [valTag, asActor]

theorem asMovieList_total : ∀ v, valTag v = .vMovieList → (asMovieList v).isSome := by
  intro v hv
  cases v <;> simp_all [valTag, asMovieList]

theorem asTVList_total : ∀ v, valTag v = .vTVList → (asTVList v).isSome := by
  intro v hv
  cases v <;> simp_all [valTag, asTVList]

/-- C5 (counterexample): the in-memory getters do not verify the stored
value's type: on a state whose movie entry holds a Genre, GetMovie panics
(unchecked Go type assertion) instead of reporting a miss. -/
theorem c5_counterexample :
    inMemGetMovie (memSet memEmpty (movieKey 1) (CacheVal.genre ⟨1, []⟩)) 1 =
      .goPanic ∧
    (GetRes.goPanic : GetRes Movie) ≠ .miss := by
  constructor
  · simp [inMemGetMovie, memGetAs, memSet, asMovie]
  · intro h
    cases h

/-- C5 (amended): absent entries are misses in both variants and undecodable
entries are misses in the remote variant, never errors; the remote getters
have no panicking branch at all.  The in-memory getters would panic on a
type-mismatched entry, but every state reachable through the cache write API
is type consistent (the key's kind segment determines the stored dynamic
type), so reads on reachable states never panic. -/
theorem c5_cache_read_safety :
    (∀ (α : Type) (st : MemStore) (k : Str) (proj : CacheVal → Option α),
        st k = none → memGetAs st k proj = .miss) ∧
    (∀ (α : Type) (st : RedisStore) (k : Str) (dec : Json → Option α),
        st k = none → redisGetAs st k dec = .miss) ∧
    (∀ (α : Type) (st : RedisStore) (k : Str) (dec : Json → Option α) (j : Json),
        st k = some j → dec j = none → redisGetAs st k dec = .miss) ∧
    (∀ (α : Type) (st : RedisStore) (k : Str) (dec : Json → Option α),
        redisGetAs st k dec ≠ .goPanic) ∧
    (∀ ops : List MemOp,
      (∀ id, inMemGetMovie (applyMemOps ops) id ≠ .goPanic) ∧
      (∀ id, inMemGetMovieShort (applyMemOps ops) id ≠ .goPanic) ∧
      (∀ id, inMemGetTV (applyMemOps ops) id ≠ .goPanic) ∧
      (∀ id, inMemGetTVShort (applyMemOps ops) id ≠ .goPanic) ∧
      (∀ tv sn en, inMemGetEpisode (applyMemOps ops) tv sn en ≠ .goPanic) ∧
      (∀ tv sn, inMemGetSeason (applyMemOps ops) tv sn ≠ .goPanic) ∧
      (∀ q p, inMemGetMovieSearchResults (applyMemOps ops) q p ≠ .goPanic) ∧
      (∀ q p y, inMemGetMovieSearchResultsYear (applyMemOps ops) q p y ≠ .goPanic) ∧
      (∀ q p, inMemGetTVSearchResults (applyMemOps ops) q p ≠ .goPanic) ∧
      (∀ id, inMemGetMovieGenre (applyMemOps ops) id ≠ .goPanic) ∧
      (∀ id, inMemGetTVGenre (applyMemOps ops) id ≠ .goPanic) ∧
      (∀ id, inMemGetActor (applyMemOps ops) id ≠ .goPanic) ∧
      (∀ g p, inMemGetMoviesByGenre (applyMemOps ops) g p ≠ .goPanic) ∧
      (∀ g p, inMemGetTVsByGenre (applyMemOps ops) g p ≠ .goPanic) ∧
      (∀ a p, inMemGetMoviesByActor (applyMemOps ops) a p ≠ .goPanic) ∧
      (∀ a p, inMemGetTVsByActor (applyMemOps ops) a p ≠ .goPanic) ∧
      (∀ s p, inMemGetMoviesByStudio (applyMemOps ops) s p ≠ .goPanic) ∧
      (∀ n p, inMemGetTVsByNetwork (applyMemOps ops) n p ≠ .goPanic) ∧
      (∀ id, inMemGetMovieRecommendations (applyMemOps ops) id ≠ .goPanic) ∧
      (∀ id, inMemGetTVRecommendations (applyMemOps ops) id ≠ .goPanic)) := by
  refine ⟨?_, ?_, ?_, ?_, ?_⟩
  · intro α st k proj h
    simp [memGetAs, h]
  · intro α st k dec h
    simp [redisGetAs, h]
  · intro α st k dec j h hj
    simp [redisGetAs, h, hj]
  · intro α st k dec
    unfold redisGetAs
    cases h : st k with
    | none => simp
    | some j =>
        cases hj : dec j with
        | none => simp [hj]
        | some v => simp [hj]
  · intro ops
    have hinv := applyMemOps_invariant ops
    refine ⟨?_, ?_, ?_, ?_, ?_, ?_, ?_, ?_, ?_, ?_, ?_, ?_, ?_, ?_, ?_, ?_, ?_, ?_,
      ?_, ?_⟩
    · exact fun id => memGetAs_ne_goPanic _ _ _ _ hinv (keyTag_movieKey id) asMovie_total
    · exact fun id =>
        memGetAs_ne_goPanic _ _ _ _ hinv (keyTag_movieShortKey id) asMovie_total
    · exact fun id => memGetAs_ne_goPanic _ _ _ _ hinv (keyTag_tvKey id) asTVShow_total
    · exact fun id =>
        memGetAs_ne_goPanic _ _ _ _ hinv (keyTag_tvShortKey id) asTVShow_total
    · exact fun tv sn en =>
        memGetAs_ne_goPanic _ _ _ _ hinv (keyTag_episodeKey tv sn en) asEpisode_total
    · exact fun tv sn =>
        memGetAs_ne_goPanic _ _ _ _ hinv (keyTag_seasonKey tv sn) asSeason_total
    · exact fun q p =>
        memGetAs_ne_goPanic _ _ _ _ hinv (keyTag_movieSearchKey q p) asPagMovies_total
    · exact fun q p y =>
        memGetAs_ne_goPanic _ _ _ _ hinv (keyTag_movieSearchYearKey q p y)
          asPagMovies_total
    · exact fun q p =>
        memGetAs_ne_goPanic _ _ _ _ hinv (keyTag_tvSearchKey q p) asPagTVs_total
    · exact fun id =>
        memGetAs_ne_goPanic _ _ _ _ hinv (keyTag_movieGenreKey id) asGenre_total
    · exact fun id =>
        memGetAs_ne_goPanic _ _ _ _ hinv (keyTag_tvGenreKey id) asGenre_total
    · exact fun id => memGetAs_ne_goPanic _ _ _ _ hinv (keyTag_actorKey id) asActor_total
    · exact fun g p =>
        memGetAs_ne_goPanic _ _ _ _ hinv (keyTag_memMoviesByGenreKey g p)
          asPagMovies_total
    · exact fun g p =>
        memGetAs_ne_goPanic _ _ _ _ hinv (keyTag_memTVsByGenreKey g p) asPagTVs_total
    · exact fun a p =>
        memGetAs_ne_goPanic _ _ _ _ hinv (keyTag_memMoviesByActorKey a p)
          asPagMovies_total
    · exact fun a p =>
        memGetAs_ne_goPanic _ _ _ _ hinv (keyTag_memTVsByActorKey a p) asPagTVs_total
    · exact fun s p =>
        memGetAs_ne_goPanic _ _ _ _ hinv (keyTag_memMoviesByStudioKey s p)
          asPagMovies_total
    · exact fun n p =>
        memGetAs_ne_goPanic _ _ _ _ hinv (keyTag_memTVsByNetworkKey n p) asPagTVs_total
    · exact fun id =>
        memGetAs_ne_goPanic _ _ _ _ hinv (keyTag_movieRecsKey id) asMovieList_total
    · exact fun id =>
        memGetAs_ne_goPanic _ _ _ _ hinv (keyTag_tvRecsKey id) asTVList_total

theorem c5_cache_read_safety_witness :
    (memEmpty (movieKey 1) = none) ∧ memGetAs memEmpty (movieKey 1) asMovie = .miss :=
  ⟨rfl, c5_cache_read_safety.1 Movie memEmpty (movieKey 1) asMovie rfl⟩

/-! ## Search caching and the adult flag (C6)

The client SearchMovies takes an adult flag and sets include_adult upstream,
but the cache revision available in the repository keys movie search results
by query and page only (its AddMovieSearchResults/GetMovieSearchResults have
no adult parameter).  The model below composes the client's
cache-then-fetch-then-fill flow with that cache. -/

/-- Upstream search provider: the returned page depends on the adult flag. -/
structure SearchEnv where
  upstream : Bool → PaginatedMovieResults

/-- Model of mediaClient.SearchMovies over the available in-memory cache
revision: the lookup and the fill both ignore the adult flag. -/
def searchMoviesOnce (env : SearchEnv) (st : MemStore) (q : Str) (p : Int)
    (adult : Bool) : PaginatedMovieResults × MemStore :=
  match inMemGetMovieSearchResults st q p with
  | .hit r => (r, st)
  | _ =>
      let r := env.upstream adult
      (r, inMemAddMovieSearchResults st q p r)

/-- Environment whose adult and non-adult result pages differ. -/
def envAdult : SearchEnv :=
  ⟨fun adult => if adult then ⟨[], 1, 1⟩ else ⟨[], 2, 2⟩⟩

/-- C6: with the cache revision present in the repository, a movie search
page cached with adult=true is stored under the same key as the
adult=false search: a subsequent search with the opposite flag returns the
cached adult page instead of its own, contradicting the keying contract. -/
theorem c6_adult_flag_shared_key :
    (searchMoviesOnce envAdult memEmpty (("q").data) 1 true).1 = ⟨[], 1, 1⟩ ∧
    (searchMoviesOnce envAdult
      (searchMoviesOnce envAdult memEmpty (("q").data) 1 true).2
      (("q").data) 1 false).1 = ⟨[], 1, 1⟩ ∧
    envAdult.upstream false ≠ ⟨[], 1, 1⟩ := by
  refine ⟨rfl, ?_, by decide⟩
  have hget : inMemGetMovieSearchResults
      (inMemAddMovieSearchResults memEmpty (("q").data) 1 ⟨[], 1, 1⟩)
      (("q").data) 1 = .hit ⟨[], 1, 1⟩ :=
    memSet_get_self _ _ _ _ _ rfl
  simp [searchMoviesOnce, envAdult, inMemGetMovieSearchResults, memGetAs, memEmpty] at hget ⊢
  simp [hget]

/-! ## Object storage (unnamed S3 revision with retries)

The S3 SDK is an environment: `putAtt f i` / `delAtt b i` give the outcome
of attempt `i` (zero based, `none` = success) of PutObject for file `f` /
DeleteObjects for listing batch `b`.  Each 1-second time.Sleep is counted;
the loops run `for i := 0; i < 3; i++` and are modelled unrolled at their
literal bound. -/

/-- Outcome of the three-attempt retry loop shared by uploadFileToS3 and
deleteObjects: whether an attempt succeeded, how many attempts ran, and how
many 1-second sleeps were performed (one after every failed attempt). -/
def runRetry3 (att : Nat → Option GoErr) : Bool × Nat × Nat :=
  match att 0 with
  | none => (true, 1, 0)
  | some _ =>
      match att 1 with
      | none => (true, 2, 1)
      | some _ =>
          match att 2 with
          | none => (true, 3, 2)
          | some _ => (false, 3, 3)

/-- Model of objectStorage.deleteObjects: up to three DeleteObjects calls;
on success return nil immediately, after the third failure return the third
attempt's error. -/
def deleteObjectsRun (att : Nat → Option GoErr) : Option GoErr :=
  match att 0 with
  | none => none
  | some _ =>
      match att 1 with
      | none => none
      | some _ => att 2

/-- Environment of one UploadMediaFiles call. -/
structure S3Env where
  pages : List (List Str)
  delAtt : Nat → Nat → Option GoErr
  files : List Str
  openRes : Str → Option GoErr
  putAtt : Str → Nat → Option GoErr

/-- Model of deleteDirectoryFromS3: pages are listed until the continuation
token runs out; every non-empty batch is deleted and the first failing batch
aborts with its error. -/
def deleteDirectoryRun (env : S3Env) : Option GoErr :=
  env.pages.enum.findSome?
    (fun bp => if bp.2 ≠ [] then deleteObjectsRun (env.delAtt bp.1) else none)

/-- Model of uploadFileToS3 for one file: an open failure skips the file with
no attempts; otherwise the three-attempt PutObject loop runs.  The function
returns nothing to its caller in the source; its observable outcome is the
(success, sleeps) pair. -/
def uploadFileRun (env : S3Env) (f : Str) : Bool × Nat :=
  match env.openRes f with
  | some _ => (false, 0)
  | none =>
      let r := runRetry3 (env.putAtt f)
      (r.1, r.2.2)

/-- Per-file outcomes of uploadDirectoryToS3 (failures are logged and
dropped; the stage itself returns nil). -/
def uploadDirectoryRun (env : S3Env) : List (Str × Bool × Nat) :=
  env.files.map (fun f => (f, uploadFileRun env f))

/-- Model of UploadMediaFiles: delete the prefix first (a delete failure is
returned), then upload every file; upload failures never surface. -/
def uploadMediaFilesRun (env : S3Env) : Option GoErr :=
  match deleteDirectoryRun env with
  | some e => some e
  | none => none

/-- Replaces the upload-side outcomes (open and put) of an environment. -/
def setUploadSide (env : S3Env) (o2 : Str → Option GoErr)
    (p2 : Str → Nat → Option GoErr) : S3Env :=
  { env with openRes := o2, putAtt := p2 }

/-- C8: each file's PutObject runs at most 3 attempts with a 1-second sleep
after every failed attempt (hence one between consecutive attempts); a file
whose attempts all fail is skipped and never fails UploadMediaFiles, whose
result is independent of the upload outcomes; each DeleteObjects batch is
retried the same way, and a batch whose three attempts all fail makes the
delete - and UploadMediaFiles - return the third attempt's error. -/
theorem c8_upload_retry_delete_propagation :
    (∀ att : Nat → Option GoErr, (runRetry3 att).2.1 ≤ 3) ∧
    (∀ att : Nat → Option GoErr,
        ((runRetry3 att).1 = false ↔ att 0 ≠ none ∧ att 1 ≠ none ∧ att 2 ≠ none)) ∧
    (∀ att : Nat → Option GoErr,
        (runRetry3 att).1 = false →
          (runRetry3 att).2.1 = 3 ∧ (runRetry3 att).2.2 = 3) ∧
    (∀ att : Nat → Option GoErr,
        (runRetry3 att).1 = true → (runRetry3 att).2.2 + 1 = (runRetry3 att).2.1) ∧
    (∀ (env : S3Env) (o2 : Str → Option GoErr) (p2 : Str → Nat → Option GoErr),
        uploadMediaFilesRun (setUploadSide env o2 p2) = uploadMediaFilesRun env) ∧
    (∀ (att : Nat → Option GoErr) (e : GoErr),
        (deleteObjectsRun att = some e ↔
          att 0 ≠ none ∧ att 1 ≠ none ∧ att 2 = some e)) ∧
    (∀ (env : S3Env) (e : GoErr),
        deleteDirectoryRun env = some e → uploadMediaFilesRun env = some e) ∧
    (∀ env : S3Env, deleteDirectoryRun env = none → uploadMediaFilesRun env = none) := by
  refine ⟨?_, ?_, ?_, ?_, ?_, ?_, ?_, ?_⟩
  · intro att
    unfold runRetry3
    cases att 0 <;> cases att 1 <;> cases att 2 <;> simp
  · intro att
    unfold runRetry3
    cases att 0 <;> cases att 1 <;> cases att 2 <;> simp
  · intro att
    unfold runRetry3
    cases att 0 <;> cases att 1 <;> cases att 2 <;> simp
  · intro att
    unfold runRetry3
    cases att 0 <;> cases att 1 <;> cases att 2 <;> simp
  · intro env o2 p2
    rfl
  · intro att e
    unfold deleteObjectsRun
    cases att 0 <;> cases att 1 <;> simp
  · intro env e h
    unfold uploadMediaFilesRun
    rw [h]
  · intro env h
    unfold uploadMediaFilesRun
    rw [h]

/-- Environment whose single delete batch fails all three attempts with
error 5 while the file uploads would succeed. -/
def envDeleteFail : S3Env :=
  { pages := [[("media/1/index.m3u8").data]]
  , delAtt := fun _ _ => some 5
  , files := [("index.m3u8").data]
  , openRes := fun _ => none
  , putAtt := fun _ _ => none }

theorem c8_upload_retry_delete_propagation_witness :
    deleteDirectoryRun envDeleteFail = some 5 ∧
    uploadMediaFilesRun envDeleteFail = some 5 :=
  ⟨rfl, c8_upload_retry_delete_propagation.2.2.2.2.2.2.1 envDeleteFail 5 rfl⟩

/-! ## GetRecentMovies (tmdb/tmdb.go)

The upstream provider is an environment mapping a page number to the
nowPlaying result page.  Go's sort.Slice is modelled by an insertion sort
over the same comparator; the properties proved below (which elements are
kept and how the output is ordered) are the ones independent of how the
sort resolves ties, so they hold for any sorting algorithm.  The slice
expression movies[:20] is modelled as a partial take that fails (Go: slice
bounds out of range panic) when fewer than 20 elements are available. -/

/-- Upstream tmdb.MovieShort (the fields the client reads). -/
structure MovieShort where
  id : Int
  title : Str
  overview : Str
  releaseDate : Str
  posterPath : Str
  backdropPath : Str
  popularity : ℚ
  voteAverage : ℚ
  voteCount : Int
deriving DecidableEq, Repr

/-- Image base URL constant of tmdb.go. -/
def imageBaseURL : Str := ("https://image.tmdb.org/t/p/original").data

/-- Placeholder used for empty backdrop paths. -/
def emptyBackdropURL : Str := ("https://bingemate.fr/assets/empty_background.jpg").data

/-- Placeholder used for empty poster paths. -/
def emptyPosterURL : Str := ("https://bingemate.fr/assets/empty_poster.jpg").data

/-- backdropImgURL of tmdb.go. -/
def backdropImgURL (path : Str) : Str :=
  if path = [] then emptyBackdropURL else imageBaseURL ++ path

/-- posterImgURL of tmdb.go. -/
def posterImgURL (path : Str) : Str :=
  if path = [] then emptyPosterURL else imageBaseURL ++ path

/-- extractMovieShort of tmdb.go: builds a Movie from the short upstream
record, normalizing empty image paths to the placeholders. -/
def extractMovieShort (movie : MovieShort) : Movie :=
  { id := movie.id
  , actors := []
  , backdropUrl := backdropImgURL movie.backdropPath
  , crew := []
  , genres := []
  , overview := movie.overview
  , posterUrl := posterImgURL movie.posterPath
  , releaseDate := movie.releaseDate
  , studios := []
  , title := movie.title
  , voteAverage := movie.voteAverage
  , voteCount := movie.voteCount }

/-- Insertion step of the sort model. -/
def sortInsert (less : α → α → Bool) (x : α) : List α → List α
  | [] => [x]
  | y :: ys => if less x y then x :: y :: ys else y :: sortInsert less x ys

/-- Model of sort.Slice with comparator less (insertion sort). -/
def sortSlice (less : α → α → Bool) : List α → List α
  | [] => []
  | x :: xs => sortInsert less x (sortSlice less xs)

theorem sortInsert_perm (less : α → α → Bool) (x : α) (l : List α) :
    (sortInsert less x l).Perm (x :: l) := by
  induction l with
  | nil => exact List.Perm.refl _
  | cons y ys ih =>
      unfold sortInsert
      by_cases h : less x y = true
      · rw [if_pos h]
      · rw [if_neg h]
        exact ((ih.cons y).trans (List.Perm.swap x y ys))

theorem sortSlice_perm (less : α → α → Bool) (l : List α) :
    (sortSlice less l).Perm l := by
  induction l with
  | nil => exact List.Perm.refl _
  | cons x xs ih =>
      exact (sortInsert_perm less x (sortSlice less xs)).trans (ih.cons x)

theorem mem_sortInsert (less : α → α → Bool) (x a : α) (l : List α) :
    a ∈ sortInsert less x l ↔ a = x ∨ a ∈ l := by
  rw [(sortInsert_perm less x l).mem_iff]
  simp

theorem sortInsert_pairwise (less : α → α → Bool) (x : α) (s : List α)
    (hs : s.Pairwise (fun a b => less b a = false))
    (htot : ∀ a b : α, less b a = false ∨ less a b = false)
    (htrans : ∀ a ∈ x :: s, ∀ b ∈ x :: s, ∀ c ∈ x :: s,
        less b a = false → less c b = false → less c a = false) :
    (sortInsert less x s).Pairwise (fun a b => less b a = false) := by
  induction s with
  | nil => simp [sortInsert]
  | cons y ys ih =>
      rw [List.pairwise_cons] at hs
      obtain ⟨hy, hys⟩ := hs
      unfold sortInsert
      by_cases hxy : less x y = true
      · rw [if_pos hxy]
        refine List.Pairwise.cons ?_ (List.Pairwise.cons hy hys)
        intro b hb
        have hyx : less y x = false := by
          rcases htot x y with h | h
          · exact h
          · rw [hxy] at h
            cases h
        rcases List.mem_cons.mp hb with rfl | hbys
        · exact hyx
        · exact htrans x (List.mem_cons_self _ _) y
            (List.mem_cons_of_mem _ (List.mem_cons_self _ _))
            b (List.mem_cons_of_mem _ (List.mem_cons_of_mem _ hbys))
            hyx (hy b hbys)
      · have hxy' : less x y = false := by
          cases h : less x y
          · rfl
          · exact absurd h hxy
        rw [if_neg hxy]
        refine List.Pairwise.cons ?_ ?_
        · intro b hb
          rcases (mem_sortInsert less x b ys).mp hb with rfl | hbys
          · exact hxy'
          · exact hy b hbys
        · refine ih hys ?_
          intro a ha b hb c hc
          have hsub : ∀ d, d ∈ x :: ys → d ∈ x :: y :: ys := by
            intro d hd
            rcases List.mem_cons.mp hd with rfl | hd2
            · exact List.mem_cons_self _ _
            · exact List.mem_cons_of_mem _ (List.mem_cons_of_mem _ hd2)
          exact htrans a (hsub a ha) b (hsub b hb) c (hsub c hc)

theorem sortSlice_pairwise (less : α → α → Bool) (l : List α)
    (htot : ∀ a b : α, less b a = false ∨ less a b = false)
    (htrans : ∀ a ∈ l, ∀ b ∈ l, ∀ c ∈ l,
        less b a = false → less c b = false → less c a = false) :
    (sortSlice less l).Pairwise (fun a b => less b a = false) := by
  induction l with
  | nil => exact List.Pairwise.nil
  | cons x xs ih =>
      unfold sortSlice
      have hmem : ∀ d, d ∈ x :: sortSlice less xs → d ∈ x :: xs := by
        intro d hd
        rcases List.mem_cons.mp hd with rfl | hd2
        · exact List.mem_cons_self _ _
        · exact List.mem_cons_of_mem _ ((sortSlice_perm less xs).mem_iff.mp hd2)
      refine sortInsert_pairwise less x (sortSlice less xs) ?_ htot ?_
      · refine ih ?_
        intro a ha b hb c hc
        exact htrans a (List.mem_cons_of_mem _ ha) b (List.mem_cons_of_mem _ hb)
          c (List.mem_cons_of_mem _ hc)
      · intro a ha b hb c hc
        exact htrans a (hmem a ha) b (hmem b hb) c (hmem c hc)

/-- Popularity comparator of the first sort.Slice in GetRecentMovies. -/
def popLess (a b : MovieShort) : Bool := decide (b.popularity < a.popularity)

/-- Release-date comparator of the second sort.Slice: false whenever either
date fails to parse, otherwise strictly-later-than. -/
def dateAfter (a b : Movie) : Bool :=
  match parseDateSec a.releaseDate, parseDateSec b.releaseDate with
  | some da, some db => decide (db < da)
  | _, _ => false

/-- Page fetch loop of GetRecentMovies: nowPlaying pages 1 through 5, with
the first upstream error returned; results are appended in order. -/
def fetchRecentPages (pages : Nat → Except GoErr (List MovieShort)) :
    Except GoErr (List MovieShort) := do
  let r1 ← pages 1
  let r2 ← pages 2
  let r3 ← pages 3
  let r4 ← pages 4
  let r5 ← pages 5
  pure ((((r1 ++ r2) ++ r3) ++ r4) ++ r5)

/-- Model of the slice expression movies[:20]: fails (Go panics with slice
bounds out of range) when fewer than 20 elements are available. -/
def goTakeTop20 (l : List α) : Option (List α) :=
  if 20 ≤ l.length then some (l.take 20) else none

/-- Model of mediaClient.GetRecentMovies: fetch pages 1-5, sort merged
results by popularity descending, keep movies[:20], extract, and sort the
kept 20 by release date descending; `none` models the Go panic of the
slice expression. -/
def getRecentMovies (pages : Nat → Except GoErr (List MovieShort)) :
    Option (Except GoErr (List Movie)) :=
  match fetchRecentPages pages with
  | .error e => some (.error e)
  | .ok movies =>
      match goTakeTop20 (sortSlice popLess movies) with
      | none => none
      | some top => some (.ok (sortSlice dateAfter (top.map extractMovieShort)))

/-- C9 (counterexample): when the five pages hold fewer than 20 movies in
total (here: zero), GetRecentMovies does not return the short list: the
slice expression movies[:20] is out of bounds and the run panics. -/
theorem c9_counterexample :
    getRecentMovies (fun _ => .ok []) = none := by rfl

/-- C9 (amended): when the merged pages hold at least 20 movies,
GetRecentMovies succeeds with exactly 20 results: a popularity-maximal
20-element subset of the merged results (every kept movie's popularity is at
least every dropped movie's), extracted via extractMovieShort, and ordered
by release date descending whenever all 20 dates parse (the comparator
treats an unparseable date as never-later).  With fewer than 20 merged
results the slice movies[:20] is out of range. -/
theorem c9_recent_movies (pages : Nat → Except GoErr (List MovieShort))
    (merged : List MovieShort)
    (hfetch : fetchRecentPages pages = .ok merged)
    (hlen : 20 ≤ merged.length) :
    ∃ res top rest,
      getRecentMovies pages = some (.ok res) ∧
      res.length = 20 ∧
      merged.Perm (top ++ rest) ∧
      top.length = 20 ∧
      (∀ a ∈ top, ∀ b ∈ rest, b.popularity ≤ a.popularity) ∧
      res.Perm (top.map extractMovieShort) ∧
      ((∀ m ∈ res, (parseDateSec m.releaseDate).isSome) →
        res.Pairwise (fun a b => dateAfter b a = false)) := by
  have hsperm : (sortSlice popLess merged).Perm merged := sortSlice_perm popLess merged
  have hslen : 20 ≤ (sortSlice popLess merged).length := by
    rw [hsperm.length_eq]
    exact hlen
  refine ⟨sortSlice dateAfter (((sortSlice popLess merged).take 20).map extractMovieShort),
    (sortSlice popLess merged).take 20, (sortSlice popLess merged).drop 20,
    ?_, ?_, ?_, ?_, ?_, ?_, ?_⟩
  · unfold getRecentMovies
    rw [hfetch]
    dsimp only
    unfold goTakeTop20
    rw [if_pos hslen]
  · rw [((sortSlice_perm dateAfter _).length_eq), List.length_map, List.length_take]
    omega
  · rw [List.take_append_drop]
    exact hsperm.symm
  · rw [List.length_take]
    omega
  · have hpw : (sortSlice popLess merged).Pairwise (fun a b => popLess b a = false) := by
      refine sortSlice_pairwise popLess merged ?_ ?_
      · intro a b
        by_cases h : a.popularity < b.popularity
        · right
          simp [popLess, not_lt.mpr (le_of_lt h)]
        · left
          simp [popLess, h]
      · intro a _ b _ c _ hab hbc
        simp only [popLess, decide_eq_false_iff_not, not_lt] at hab hbc ⊢
        exact hbc.trans hab
    have hpw2 : ((sortSlice popLess merged).take 20 ++
        (sortSlice popLess merged).drop 20).Pairwise (fun a b => popLess b a = false) := by
      rw [List.take_append_drop]
      exact hpw
    have hsplit := List.pairwise_append.mp hpw2
    intro a ha b hb
    have hr := hsplit.2.2 a ha b hb
    simpa [popLess, decide_eq_false_iff_not, not_lt] using hr
  · exact sortSlice_perm dateAfter _
  · intro hp
    have hp2 : ∀ m ∈ ((sortSlice popLess merged).take 20).map extractMovieShort,
        (parseDateSec m.releaseDate).isSome := by
      intro m hm
      exact hp m ((sortSlice_perm dateAfter _).mem_iff.mpr hm)
    refine sortSlice_pairwise dateAfter _ ?_ ?_
    · intro a b
      unfold dateAfter
      cases hpa : parseDateSec a.releaseDate with
      | none =>
          left
          cases parseDateSec b.releaseDate <;> rfl
      | some da =>
          cases hpb : parseDateSec b.releaseDate with
          | none => right; rfl
          | some db =>
              by_cases h : da < db
              · right
                simp [not_lt.mpr (le_of_lt h)]
              · left
                simp [h]
    · intro a ha b hb c hc hab hbc
      obtain ⟨da, hda⟩ := Option.isSome_iff_exists.mp (hp2 a ha)
      obtain ⟨db, hdb⟩ := Option.isSome_iff_exists.mp (hp2 b hb)
      obtain ⟨dc, hdc⟩ := Option.isSome_iff_exists.mp (hp2 c hc)
      unfold dateAfter at hab hbc ⊢
      rw [hda, hdb] at hab
      rw [hdb, hdc] at hbc
      rw [hda, hdc]
      simp only [decide_eq_false_iff_not, not_lt] at hab hbc ⊢
      exact hbc.trans hab

/-- Fixed upstream movie used by the witness run. -/
def witnessMovieShort : MovieShort :=
  { id := 1, title := [], overview := [], releaseDate := []
  , posterPath := [], backdropPath := [], popularity := 0
  , voteAverage := 0, voteCount := 0 }

/-- Upstream pages of the witness run: four movies per page. -/
def witnessPages : Nat → Except GoErr (List MovieShort) :=
  fun _ => .ok (List.replicate 4 witnessMovieShort)

theorem c9_recent_movies_witness :
    (fetchRecentPages witnessPages = .ok (List.replicate 20 witnessMovieShort) ∧
      20 ≤ (List.replicate 20 witnessMovieShort).length) ∧
    (∃ res top rest,
      getRecentMovies witnessPages = some (.ok res) ∧
      res.length = 20 ∧
      (List.replicate 20 witnessMovieShort).Perm (top ++ rest) ∧
      top.length = 20 ∧
      (∀ a ∈ top, ∀ b ∈ rest, b.popularity ≤ a.popularity) ∧
      res.Perm (top.map extractMovieShort) ∧
      ((∀ m ∈ res, (parseDateSec m.releaseDate).isSome) →
        res.Pairwise (fun a b => dateAfter b a = false))) :=
  ⟨⟨rfl, by decide⟩,
    c9_recent_movies witnessPages (List.replicate 20 witnessMovieShort) rfl (by decide)⟩

end MediaPkg
